import Mathlib

set_option maxHeartbeats 2000000
set_option maxRecDepth 8000

/- Verification development for the FlexiPDF backend chatbot core
   (src/chatbot.py, class AliChatbot).

   Modelling conventions:
   - Python strings are embedded as `List Char`; case mapping is the ASCII
     one (all pattern literals of the source are ASCII lowercase).
   - Each Python regular expression of the source is embedded as an
     executable matcher implementing the semantics of the concrete pattern
     written there (leftmost search, greedy or lazy quantifiers as written,
     word boundaries, IGNORECASE).  Each matcher documents the pattern it
     embeds.
   - `datetime.now()` is an external input and is passed as a parameter.
   - The persisted memory dict (`self.data` as read and written by
     `_load_or_init_memory` / `_save_memory`) is modelled dynamically as an
     association list `List (String × PyVal)` over a JSON-like value type,
     because `_load_or_init_memory` dispatches on the runtime type of each
     field (`isinstance(raw[k], type(self.data[k]))`).
   - The in-memory state used by the dialogue pipeline (`get_response` and
     its helpers) is modelled as the structure `ChatData`: the nine schema
     fields plus `extra` for the open-ended top-level keys that
     `_learn_structured_fact` can create (`favorite_color`, `hobby`,
     `likes`, `age`).  `json.dump`/`json.load` round-tripping is the
     identity on this model. -/

/-- Convert a string literal to the `List Char` representation. -/
def lc (s : String) : List Char := s.toList

/-- Python `\s` / `str.strip` whitespace (ASCII range). -/
def isSpc (c : Char) : Bool :=
  c = ' ' || c = '\t' || c = '\n' || c = '\r' || c = '\x0b' || c = '\x0c'

/-- Python regex `\w` (ASCII range). -/
def isWordChar (c : Char) : Bool := c.isAlphanum || c = '_'

/-- Python `str.lower` (ASCII). -/
def lowerL (l : List Char) : List Char := l.map Char.toLower

/-- Leading-whitespace strip. -/
def lstrip (l : List Char) : List Char := l.dropWhile isSpc

/-- Trailing-whitespace strip. -/
def rstrip (l : List Char) : List Char := (l.reverse.dropWhile isSpc).reverse

/-- Python `str.strip()`. -/
def strip (l : List Char) : List Char := rstrip (lstrip l)

/-- The characters removed by the source's `rstrip(".!?")`. -/
def isPunct3 (c : Char) : Bool := c = '.' || c = '!' || c = '?'

/-- Python `str.rstrip(".!?")`. -/
def rstripPunct (l : List Char) : List Char := (l.reverse.dropWhile isPunct3).reverse

/-- Python `key.replace('_', ' ')`. -/
def replUnd (l : List Char) : List Char := l.map (fun c => if c = '_' then ' ' else c)

/-- Python `key.replace(' ', '_')`. -/
def spaceToUnd (l : List Char) : List Char := l.map (fun c => if c = ' ' then '_' else c)

/-- Helper for `pyTitle`: the boolean records whether the previous character
was alphabetic. -/
def pyTitleAux : Bool → List Char → List Char
  | _, [] => []
  | prev, c :: cs =>
    (if c.isAlpha then (if prev then c.toLower else c.toUpper) else c) ::
      pyTitleAux c.isAlpha cs

/-- Python `str.title()` (ASCII): a letter is uppercased when the previous
character is not a letter, lowercased otherwise. -/
def pyTitle (l : List Char) : List Char := pyTitleAux false l

/-- Python `str.capitalize()`: first character uppercased, the rest
lowercased. -/
def pyCapitalize : List Char → List Char
  | [] => []
  | c :: cs => c.toUpper :: lowerL cs

/-- Number of words of Python `str.split()` (maximal non-whitespace runs). -/
def countWordsAux : Bool → List Char → Nat
  | _, [] => 0
  | inWord, c :: cs =>
    if isSpc c then countWordsAux false cs
    else (if inWord then 0 else 1) + countWordsAux true cs

/-- `len(u.split())` of the source. -/
def countWords (l : List Char) : Nat := countWordsAux false l

/-- Prefix test, used by `inStr`. -/
def isPrefB : List Char → List Char → Bool
  | [], _ => true
  | _ :: _, [] => false
  | a :: as, b :: bs => a = b && isPrefB as bs

/-- Python substring containment `needle in hay`. -/
def inStr (needle : List Char) : List Char → Bool
  | [] => isPrefB needle []
  | b :: rest => isPrefB needle (b :: rest) || inStr needle rest

/-- First-match lookup in an insertion-ordered association list (Python
dict read `m[k]` / `m.get(k)`). -/
def dictGet {κ α : Type} [DecidableEq κ] : List (κ × α) → κ → Option α
  | [], _ => none
  | (k', v) :: rest, k => if k = k' then some v else dictGet rest k

/-- Python dict write `m[k] = v`: overwrite in place if the key is present
(preserving insertion order), append otherwise. -/
def dictSet {κ α : Type} [DecidableEq κ] (m : List (κ × α)) (k : κ) (v : α) :
    List (κ × α) :=
  if (dictGet m k).isSome then m.map (fun kv => if kv.1 = k then (k, v) else kv)
  else m ++ [(k, v)]

/-- JSON-like runtime values of the persisted record (`json.load` result).
Floats and booleans are omitted: the schema of `self.data` never stores
them and no claim mentions them. -/
inductive PyVal : Type where
  | pnone : PyVal
  | pstr : String → PyVal
  | pint : Int → PyVal
  | plist : List PyVal → PyVal
  | pdict : List (String × PyVal) → PyVal

/-- The default `self.data` dict built in `AliChatbot.__init__`
(chatbot.py lines 46-56), before any load. -/
def defaultPy : List (String × PyVal) :=
  [(("user_name"), PyVal.pnone),
   (("country"), PyVal.pnone),
   (("city"), PyVal.pnone),
   (("language"), PyVal.pnone),
   (("facts"), PyVal.pdict []),
   (("relationships"), PyVal.pdict []),
   (("conversations"), PyVal.plist []),
   (("flexipdf_knowledge"), PyVal.pdict []),
   (("meta"), PyVal.pdict [(("created_at"), PyVal.pnone)])]

/-- `isinstance(raw[k], type(self.data[k]))`: same runtime type
constructor.  (`type(None)` is `NoneType`, so a string value never passes
the check against a `None` default.) -/
def sameType : PyVal → PyVal → Bool
  | PyVal.pnone, PyVal.pnone => true
  | PyVal.pstr _, PyVal.pstr _ => true
  | PyVal.pint _, PyVal.pint _ => true
  | PyVal.plist _, PyVal.plist _ => true
  | PyVal.pdict _, PyVal.pdict _ => true
  | _, _ => false

/-- `isinstance(v, list)`. -/
def isListV : PyVal → Bool
  | PyVal.plist _ => true
  | _ => false

/-- One iteration of the per-field adoption loop of `_load_or_init_memory`
(chatbot.py lines 87-92), applied to one (key, default) pair of
`self.data`. -/
def adoptField (rm : List (String × PyVal)) (kv : String × PyVal) : String × PyVal :=
  match dictGet rm kv.1 with
  | some rv =>
    if sameType rv kv.2 then (kv.1, rv)
    else if kv.1 = ("conversations") && isListV rv then (kv.1, rv)
    else kv
  | none => kv

/-- Python `a.update(b)` on dicts. -/
def pyUpdate (a b : List (String × PyVal)) : List (String × PyVal) :=
  b.foldl (fun acc kv => dictSet acc kv.1 kv.2) a

/-- `_load_or_init_memory` (chatbot.py lines 78-101) on a durable record
that exists and parses to `raw`: if `raw` is not a dict, only a
conversation list is salvaged; otherwise each expected field is adopted
when `isinstance(raw[k], type(self.data[k]))`, and `meta` is merged again
when `raw["meta"]` is a dict. -/
def loadFromRaw : PyVal → List (String × PyVal)
  | PyVal.pdict rm =>
    let adopted := defaultPy.map (adoptField rm)
    match dictGet rm ("meta") with
    | some (PyVal.pdict mm) =>
      let cur : List (String × PyVal) :=
        match dictGet adopted ("meta") with
        | some (PyVal.pdict cm) => cm
        | _ => []
      dictSet adopted ("meta") (PyVal.pdict (pyUpdate cur mm))
    | _ => adopted
  | PyVal.plist l => dictSet defaultPy ("conversations") (PyVal.plist l)
  | _ => dictSet defaultPy ("conversations") (PyVal.plist [])

/-- `_save_memory` serializes `self.data` unchanged (`json.dump(self.data)`),
so the durable record of a data dict is the dict itself. -/
def saveOf (d : List (String × PyVal)) : PyVal := PyVal.pdict d

/-- The nine top-level keys of the default schema. -/
def schemaKeys : List String :=
  [("user_name"), ("country"), ("city"), ("language"), ("facts"),
   ("relationships"), ("conversations"), ("flexipdf_knowledge"), ("meta")]

/-- Regex helper: case-insensitive literal match (every pattern literal in
the source is lowercase ASCII, so one-sided lowering is exact); returns
the rest of the input on success. -/
def litCI : List Char → List Char → Option (List Char)
  | [], s => some s
  | _ :: _, [] => none
  | p :: ps, c :: cs => if c.toLower = p then litCI ps cs else none

/-- Word boundary `\b` before a pattern starting with a word character:
holds at the start of the string or after a non-word character. -/
def bdryOk : Option Char → Bool
  | none => true
  | some c => !(isWordChar c)

/-- `re.search` driver: try the attempt at every position, left to right;
the attempt receives the previous character (for `\b`) and the rest of the
input. -/
def searchAux {α : Type} (att : Option Char → List Char → Option α) :
    Option Char → List Char → Option α
  | prev, [] => att prev []
  | prev, c :: cs =>
    match att prev (c :: cs) with
    | some r => some r
    | none => searchAux att (some c) cs

/-- `re.search` driver for attempts that do not look at `\b`. -/
def searchSimple {α : Type} (att : List Char → Option α) : List Char → Option α
  | [] => att []
  | c :: cs =>
    match att (c :: cs) with
    | some r => some r
    | none => searchSimple att cs

/-- Backtracking case of `\s+(cls+)` when the character after the greedy
space run is not in the class (or the input ends): when the class itself
contains whitespace, `\s+` gives its last character back to the group,
provided at least one space remains for `\s+`. -/
def backOne (cls : Char → Bool) (sp : List Char) : Option (List Char) :=
  if 2 ≤ sp.length then
    match sp.getLast? with
    | some l => if cls l then some [l] else none
    | none => none
  else none

/-- Regex `\s+(cls+)` with both quantifiers greedy, returning the group. -/
def matchSpClass (cls : Char → Bool) (t : List Char) : Option (List Char) :=
  match t.takeWhile isSpc, t.dropWhile isSpc with
  | [], _ => none
  | sp, [] => backOne cls sp
  | sp, c :: cs => if cls c then some (c :: cs.takeWhile cls) else backOne cls sp

/-- Attempt, at one position, of a pattern `\b<lit>\s+(<cls>+)`. -/
def attLC (lit : List Char) (cls : Char → Bool) (prev : Option Char)
    (s : List Char) : Option (List Char) :=
  if bdryOk prev then
    match litCI lit s with
    | some t => matchSpClass cls t
    | none => none
  else none

/-- `re.search` of `\b<lit>\s+(<cls>+)` (IGNORECASE), returning group 1. -/
def searchPat (lit : List Char) (cls : Char → Bool) (text : List Char) :
    Option (List Char) :=
  searchAux (attLC lit cls) none text

/-- `re.search(r"\bmy age is\s+(\d{1,3})", text, I)`: greedy `{1,3}` takes
up to three digits of the digit run. -/
def attAge (prev : Option Char) (s : List Char) : Option (List Char) :=
  if bdryOk prev then
    match litCI (lc ("my age is")) s with
    | some t =>
      match t.takeWhile isSpc, t.dropWhile isSpc with
      | [], _ => none
      | _ :: _, rest =>
        let ds := rest.takeWhile Char.isDigit
        if ds.isEmpty then none else some (ds.take 3)
    | none => none
  else none

def searchAge (text : List Char) : Option (List Char) :=
  searchAux attAge none text

/-- Attempt of `\b<pre>(?:name )?is\s+(<cls>+)` at one position (the
mother/father/sister/brother patterns); the greedy optional group is tried
first, the bare `is` on its failure. -/
def attRelOpt (pre : List Char) (cls : Char → Bool) (prev : Option Char)
    (s : List Char) : Option (List Char) :=
  if bdryOk prev then
    match litCI pre s with
    | some t1 =>
      let withOpt : Option (List Char) :=
        match litCI (lc ("name ")) t1 with
        | some t2 =>
          match litCI (lc ("is")) t2 with
          | some t3 => matchSpClass cls t3
          | none => none
        | none => none
      match withOpt with
      | some g => some g
      | none =>
        match litCI (lc ("is")) t1 with
        | some t3 => matchSpClass cls t3
        | none => none
    | none => none
  else none

def searchRelOpt (pre : List Char) (cls : Char → Bool) (text : List Char) :
    Option (List Char) :=
  searchAux (attRelOpt pre cls) none text

/-- Regex class `[A-Za-z\s'\-]` of the name-valued patterns. -/
def nameCls (c : Char) : Bool := c.isAlpha || isSpc c || c = '\'' || c = '-'

/-- Regex class `[A-Za-z\s]` of the other captured values. -/
def placeCls (c : Char) : Bool := c.isAlpha || isSpc c

/-- Regex class `[a-z_ ]` under IGNORECASE. -/
def roleCls (c : Char) : Bool := c.isAlpha || c = '_' || c = ' '

def notQuote (c : Char) : Bool := !(c = '\'')

def notNl (c : Char) : Bool := !(c = '\n')

def notColonQuote (c : Char) : Bool := !(c = ':') && !(c = '\'')

/-- Regex `\s*(.+)` (greedy `\s*`; `.` excludes `\n`), returning the
group; `\s*` gives characters back when nothing matchable follows it. -/
def ssdp : List Char → Option (List Char)
  | [] => none
  | c :: cs =>
    if isSpc c then
      match ssdp cs with
      | some g => some g
      | none => if notNl c then some (c :: cs.takeWhile notNl) else none
    else if notNl c then some (c :: cs.takeWhile notNl) else none

/-- Regex `\s+(.+)`: one whitespace, then `\s*(.+)`. -/
def matchSpDotPlus : List Char → Option (List Char)
  | [] => none
  | c :: cs => if isSpc c then ssdp cs else none

/-- One exchange of the conversation log / context deque. -/
structure Exchange where
  user : List Char
  ai : List Char
  time : List Char
  deriving DecidableEq, Repr

/-- The in-memory `self.data` as the dialogue pipeline uses it: the nine
schema fields, plus `extra` for the open-ended top-level scalar keys the
structured extractor can create. -/
structure ChatData where
  user_name : Option (List Char)
  country : Option (List Char)
  city : Option (List Char)
  language : Option (List Char)
  facts : List (List Char × List Char)
  relationships : List (List Char × List Char)
  conversations : List Exchange
  flexipdf_knowledge : List (List Char × List Char)
  extra : List (List Char × List Char)
  meta_created_at : Option (List Char)
  deriving DecidableEq, Repr

/-- A chatbot instance: data, context deque, deque capacity. -/
structure Chatbot where
  data : ChatData
  context : List Exchange
  ctxSize : Nat
  deriving DecidableEq, Repr

/-- The default in-memory data of `AliChatbot.__init__` before any load
(chatbot.py lines 46-56). -/
def freshData : ChatData :=
  { user_name := none, country := none, city := none, language := none,
    facts := [], relationships := [], conversations := [],
    flexipdf_knowledge := [], extra := [], meta_created_at := none }

/-- The data `reset_memory` installs (chatbot.py lines 112-122), with the
fresh `datetime.now()` timestamp passed in. -/
def defaultData (now : List Char) : ChatData :=
  { freshData with meta_created_at := some now }

/-- The nine seeded FlexiPDF help entries (chatbot.py lines 165-175). -/
def seedDefaults : List (List Char × List Char) :=
  [(lc ("pdf_to_word"), lc ("Convert PDF files into editable Word (.docx) documents.")),
   (lc ("word_to_pdf"), lc ("Convert Word (.docx) files into clean, printable PDF files.")),
   (lc ("pdf_to_image"), lc ("Export pages of a PDF into high-quality image files (PNG/JPG).")),
   (lc ("images_to_pdf"), lc ("Merge multiple images into a single PDF document.")),
   (lc ("merge_pdfs"), lc ("Combine multiple PDF files into a single PDF.")),
   (lc ("split_pdf"), lc ("Split a PDF into multiple smaller PDF files by page ranges.")),
   (lc ("compress_pdf"), lc ("Reduce PDF file size while keeping acceptable quality.")),
   (lc ("ocr_pdf"), lc ("(If available) Use OCR to recognize text inside scanned PDF pages.")),
   (lc ("ai_assistant"), lc ("I’m Ali — the built-in AI assistant that helps with FlexiPDF tasks and answers questions."))]

/-- `_seed_flexipdf_knowledge` (chatbot.py lines 164-179): each default is
added only when its key is absent. -/
def seedKnowledge (d : ChatData) : ChatData :=
  let fpk := seedDefaults.foldl
    (fun m kv => if (dictGet m kv.1).isSome then m else dictSet m kv.1 kv.2)
    d.flexipdf_knowledge
  { d with flexipdf_knowledge := fpk }

/-- A fresh chatbot instance with no durable record: `__init__` installs
the defaults, `_load_or_init_memory` stamps `created_at`, and the
knowledge base is seeded; the context deque is empty with maxlen 20. -/
def initBot (now : List Char) : Chatbot :=
  { data := seedKnowledge { freshData with meta_created_at := some now },
    context := [], ctxSize := 20 }

/-- `deque(maxlen=n)` append: evict the oldest entries when over
capacity. -/
def ctxAppend (n : Nat) (b : List Exchange) (e : Exchange) : List Exchange :=
  let b' := b ++ [e]
  if b'.length ≤ n then b' else b'.drop (b'.length - n)

/-- `_remember_conversation` (chatbot.py lines 184-196): append one
exchange to the conversation log and to the context deque (the persist and
the optional index refresh have no effect on the modelled state). -/
def remember (st : Chatbot) (u a t : List Char) : Chatbot :=
  { st with
    data := { st.data with conversations := st.data.conversations ++ [⟨u, a, t⟩] },
    context := ctxAppend st.ctxSize st.context ⟨u, a, t⟩ }

/-- `reset_memory` (chatbot.py lines 110-127): the confirmation reply and
the new state. -/
def resetMemory (st : Chatbot) (now : List Char) : List Char × Chatbot :=
  (lc ("Memory reset — fresh start ✨"),
   { st with data := defaultData now, context := [] })

/-- Dynamic write `self.data[key] = stored` for the scalar keys of the
structured extractor: the schema scalars hit their fields, other keys
become top-level entries (modelled in `extra`). -/
def setDataKey (d : ChatData) (k : List Char) (v : List Char) : ChatData :=
  if k = lc ("user_name") then { d with user_name := some v }
  else if k = lc ("country") then { d with country := some v }
  else if k = lc ("city") then { d with city := some v }
  else if k = lc ("language") then { d with language := some v }
  else { d with extra := dictSet d.extra k v }

/-- Dynamic read `self.data.get(key)` for the same scalar keys. -/
def getDataVal (d : ChatData) (k : List Char) : Option (List Char) :=
  if k = lc ("user_name") then d.user_name
  else if k = lc ("country") then d.country
  else if k = lc ("city") then d.city
  else if k = lc ("language") then d.language
  else dictGet d.extra k

/-- The ordered (pattern, storage key) rules of `_learn_structured_fact`
(chatbot.py lines 213-226). -/
def structPatterns : List ((List Char → Option (List Char)) × List Char) :=
  [(searchPat (lc ("my name is")) nameCls, lc ("user_name")),
   (searchPat (lc ("i am called")) nameCls, lc ("user_name")),
   (searchPat (lc ("i'm called")) nameCls, lc ("user_name")),
   (searchPat (lc ("my country is")) placeCls, lc ("country")),
   (searchPat (lc ("i am from")) placeCls, lc ("country")),
   (searchPat (lc ("from")) placeCls, lc ("country")),
   (searchPat (lc ("my city is")) placeCls, lc ("city")),
   (searchPat (lc ("i live in")) placeCls, lc ("city")),
   (searchPat (lc ("my favorite color is")) placeCls, lc ("favorite_color")),
   (searchPat (lc ("my hobby is")) placeCls, lc ("hobby")),
   (searchPat (lc ("i like")) placeCls, lc ("likes")),
   (searchAge, lc ("age"))]

/-- The field-specific confirmations of `_learn_structured_fact`
(chatbot.py lines 240-247). -/
def structConfirm (key stored : List Char) : List Char :=
  if key = lc ("user_name") then
    lc ("Nice to meet you, ") ++ stored ++ lc ("! 💫 I'll remember your name.")
  else if key = lc ("country") then
    lc ("Oh nice! 🌍 ") ++ stored ++ lc (" — I'll remember that.")
  else if key = lc ("city") then
    stored ++ lc (" sounds like a lovely city 🏙️ — got it!")
  else
    lc ("Got it! I’ve learned that your ") ++ replUnd key ++ lc (" is ")
      ++ stored ++ lc (" 🧠")

/-- The `for pattern, key in patterns` loop of `_learn_structured_fact`:
first matching pattern wins; the captured value is stripped, rstripped of
punctuation, title-cased for `user_name` and capitalized otherwise. -/
def tryStructPatterns (d : ChatData) (text : List Char) :
    List ((List Char → Option (List Char)) × List Char) →
    Option (List Char × ChatData)
  | [] => none
  | (f, key) :: rest =>
    match f text with
    | some g =>
      let val := rstripPunct (strip g)
      let stored := if key = lc ("user_name") then pyTitle val else pyCapitalize val
      some (structConfirm key stored, setDataKey d key stored)
    | none => tryStructPatterns d text rest

/-- The relationship rules of `_learn_structured_fact`
(chatbot.py lines 249-260), in dict insertion order. -/
def relPatterns : List ((List Char → Option (List Char)) × List Char) :=
  [(searchPat (lc ("my friend is")) nameCls, lc ("friend")),
   (searchPat (lc ("my best friend is")) nameCls, lc ("best_friend")),
   (searchPat (lc ("my girlfriend is")) nameCls, lc ("girlfriend")),
   (searchPat (lc ("my boyfriend is")) nameCls, lc ("boyfriend")),
   (searchPat (lc ("my teacher is")) nameCls, lc ("teacher")),
   (searchRelOpt (lc ("my mother ")) nameCls, lc ("mother")),
   (searchRelOpt (lc ("my father ")) nameCls, lc ("father")),
   (searchRelOpt (lc ("my sister ")) nameCls, lc ("sister")),
   (searchRelOpt (lc ("my brother ")) nameCls, lc ("brother")),
   (searchPat (lc ("my crush is")) nameCls, lc ("crush"))]

/-- Heart emoji choice (chatbot.py lines 269 and 361). -/
def relHeart (key : List Char) : List Char :=
  if key = lc ("girlfriend") || key = lc ("boyfriend") || key = lc ("crush")
  then lc ("💞") else lc ("🤝")

/-- The relationship loop of `_learn_structured_fact`
(chatbot.py lines 261-270). -/
def tryRelPatterns (d : ChatData) (text : List Char) :
    List ((List Char → Option (List Char)) × List Char) →
    Option (List Char × ChatData)
  | [] => none
  | (f, key) :: rest =>
    match f text with
    | some g =>
      let val := pyTitle (rstripPunct (strip g))
      some (lc ("Nice — I’ve learned your ") ++ replUnd key ++ lc (" is ")
              ++ val ++ lc (" ") ++ relHeart key,
            { d with relationships := dictSet d.relationships key val })
    | none => tryRelPatterns d text rest

/-- `_learn_structured_fact` (chatbot.py lines 207-272). -/
def learnStructuredFact (d : ChatData) (text : List Char) :
    Option (List Char × ChatData) :=
  match tryStructPatterns d text structPatterns with
  | some r => some r
  | none => tryRelPatterns d text relPatterns

/-- Attempt of `ali learn\s+'([^']+)'\s+means\s+(.+)` (no word boundary in
the source pattern) at one position; returns (group 1, group 2).  The
closing quote makes the greedy `[^']+` deterministic. -/
def attAliLearn (s : List Char) : Option (List Char × List Char) :=
  match litCI (lc ("ali learn")) s with
  | none => none
  | some t1 =>
    match t1.takeWhile isSpc, t1.dropWhile isSpc with
    | [], _ => none
    | _ :: _, rest =>
      match rest with
      | '\'' :: r1 =>
        match r1.takeWhile notQuote, r1.dropWhile notQuote with
        | [], _ => none
        | g1, '\'' :: r2 =>
          match r2.takeWhile isSpc, r2.dropWhile isSpc with
          | [], _ => none
          | _ :: _, r3 =>
            match litCI (lc ("means")) r3 with
            | none => none
            | some r4 =>
              match matchSpDotPlus r4 with
              | some g2 => some (g1, g2)
              | none => none
        | _, _ => none
      | _ => none

/-- Attempt of `teach ali about\s+'?([^:']+)'?:\s*(.+)` at one position.
Both optional quotes are deterministic because the group's class excludes
`'` and `:`. -/
def attTeachAli (s : List Char) : Option (List Char × List Char) :=
  match litCI (lc ("teach ali about")) s with
  | none => none
  | some t1 =>
    match t1.takeWhile isSpc, t1.dropWhile isSpc with
    | [], _ => none
    | _ :: _, rest0 =>
      let rest := match rest0 with
        | '\'' :: r => r
        | r => r
      match rest.takeWhile notColonQuote, rest.dropWhile notColonQuote with
      | [], _ => none
      | g1, ':' :: r3 =>
        match ssdp r3 with
        | some g2 => some (g1, g2)
        | none => none
      | g1, '\'' :: ':' :: r3 =>
        match ssdp r3 with
        | some g2 => some (g1, g2)
        | none => none
      | _, _ => none

/-- `_learn_flexipdf_knowledge` (chatbot.py lines 303-324). -/
def learnFlexipdfKnowledge (d : ChatData) (text : List Char) :
    Option (List Char × ChatData) :=
  match searchSimple attAliLearn text with
  | some (g1, g2) =>
    let key := spaceToUnd (lowerL (strip g1))
    let explanation := rstripPunct (strip g2)
    some (lc ("Nice! I learned that **") ++ replUnd key ++ lc ("** means: ")
            ++ explanation ++ lc (" ✅"),
          { d with flexipdf_knowledge := dictSet d.flexipdf_knowledge key explanation })
  | none =>
    match searchSimple attTeachAli text with
    | some (g1, g2) =>
      let key := spaceToUnd (lowerL (strip g1))
      let explanation := rstripPunct (strip g2)
      some (lc ("Thanks — I learned about **") ++ replUnd key ++ lc ("**: ")
              ++ explanation ++ lc (" ✅"),
            { d with flexipdf_knowledge := dictSet d.flexipdf_knowledge key explanation })
    | none => none

/-- One keyword of `re.match(r"\s*(what|who|why|how)\b", ...)` (also used
for the mood and greeting alternations): literal at the start of `t`,
followed by end of input or a non-word character. -/
def kwAtStart (kw t : List Char) : Bool :=
  match litCI kw t with
  | some [] => true
  | some (c :: _) => !(isWordChar c)
  | none => false

/-- The question-word guard of `_learn_fact_statement`
(chatbot.py line 283). -/
def questionGuard (text : List Char) : Bool :=
  let t := text.dropWhile isSpc
  kwAtStart (lc ("what")) t || kwAtStart (lc ("who")) t ||
    kwAtStart (lc ("why")) t || kwAtStart (lc ("how")) t

/-- Tail `\s+is\s+(.+)` of the generic fact pattern (greedy `\s+` before
`is` is deterministic since `i` is not whitespace). -/
def matchIsTail : List Char → Option (List Char)
  | [] => none
  | c :: cs =>
    if isSpc c then
      match litCI (lc ("is")) (cs.dropWhile isSpc) with
      | some r => matchSpDotPlus r
      | none => none
    else none

/-- Lazy scan of `\s*([^?.!]+?)\s+is\s+(.+)` after the greedy `\s*`: grow
the subject one character at a time (each must avoid `?.!`), checking the
tail after each step, so the shortest subject wins.  (A match whose
subject lies inside the leading whitespace would strip to an empty
subject and be rejected by the length check, so anchoring the subject
after the maximal space prefix is observationally equivalent to the
engine's backtracking over `\s*`.) -/
def scanFact (acc : List Char) : List Char → Option (List Char × List Char)
  | [] => none
  | c :: cs =>
    if isPunct3 c then none
    else
      match matchIsTail cs with
      | some g2 => some (acc ++ [c], g2)
      | none => scanFact (acc ++ [c]) cs

/-- `_learn_fact_statement` (chatbot.py lines 277-297). -/
def learnFactStatement (d : ChatData) (text : List Char) :
    Option (List Char × ChatData) :=
  if questionGuard text then none
  else
    match scanFact [] (text.dropWhile isSpc) with
    | some (g1, g2) =>
      let subject := lowerL (rstripPunct (strip g1))
      let meaning := rstripPunct (strip g2)
      if subject.length < 2 || meaning.length < 1 then none
      else
        some (lc ("Got it! I’ve learned that **") ++ subject ++ lc ("** is **")
                ++ meaning ++ lc ("** 🧠"),
              { d with facts := dictSet d.facts subject meaning })
    | none => none

/-- `re.match(r"\s*(what is|who is|define)\s+(.+)\??", text, I)`: group 2
(the optional `\??` matches nothing after the greedy `.+`). -/
def factQueryTerm (text : List Char) : Option (List Char) :=
  let t := text.dropWhile isSpc
  match litCI (lc ("what is")) t with
  | some r => matchSpDotPlus r
  | none =>
    match litCI (lc ("who is")) t with
    | some r => matchSpDotPlus r
    | none =>
      match litCI (lc ("define")) t with
      | some r => matchSpDotPlus r
      | none => none

/-- `re.sub(r"^(the|a|an)\s+", "", term)`; `term` is already lowercase. -/
def stripArticle (t : List Char) : List Char :=
  match litCI (lc ("the")) t with
  | some r =>
    if (r.takeWhile isSpc).isEmpty then
      match litCI (lc ("a")) t with
      | some r2 =>
        if (r2.takeWhile isSpc).isEmpty then
          match litCI (lc ("an")) t with
          | some r3 => if (r3.takeWhile isSpc).isEmpty then t else r3.dropWhile isSpc
          | none => t
        else r2.dropWhile isSpc
      | none => t
    else r.dropWhile isSpc
  | none =>
    match litCI (lc ("a")) t with
    | some r2 =>
      if (r2.takeWhile isSpc).isEmpty then
        match litCI (lc ("an")) t with
        | some r3 => if (r3.takeWhile isSpc).isEmpty then t else r3.dropWhile isSpc
        | none => t
      else r2.dropWhile isSpc
    | none => t

/-- `_answer_fact_query` (chatbot.py lines 329-353). -/
def answerFactQuery (d : ChatData) (text : List Char) : Option (List Char) :=
  match factQueryTerm text with
  | some g2 =>
    let term := lowerL (rstripPunct (strip g2))
    match dictGet d.facts term with
    | some v => some (pyCapitalize term ++ lc (" is ") ++ v ++ lc (" 💡"))
    | none =>
      match dictGet d.flexipdf_knowledge term with
      | some v => some (pyCapitalize (replUnd term) ++ lc (": ") ++ v)
      | none =>
        let tc := stripArticle term
        match dictGet d.facts tc with
        | some v => some (pyCapitalize tc ++ lc (" is ") ++ v ++ lc (" 💡"))
        | none => none
  | none => none

/-- First loop of `_answer_relationship_query` (chatbot.py lines 357-362):
for each stored relation key in order, a substring hit of
`who is my <role>` or of the raw key answers with the stored name (falsy
names are skipped). -/
def relLoop (rels : List (List Char × List Char)) (lowText : List Char) :
    List (List Char × List Char) → Option (List Char)
  | [] => none
  | (rel, _) :: rest =>
    if inStr (lc ("who is my ") ++ replUnd rel) lowText
        || inStr rel lowText then
      match dictGet rels rel with
      | some name =>
        if name.isEmpty then relLoop rels lowText rest
        else some (lc ("Your ") ++ replUnd rel ++ lc (" is ") ++ name ++ lc (" ")
                     ++ relHeart rel)
      | none => relLoop rels lowText rest
    else relLoop rels lowText rest

/-- Attempt of `who is my ([a-z_ ]+)\??` (IGNORECASE; no `\b`). -/
def attWhoIsMy (s : List Char) : Option (List Char) :=
  match litCI (lc ("who is my ")) s with
  | some r =>
    match r with
    | c :: cs => if roleCls c then some (c :: cs.takeWhile roleCls) else none
    | [] => none
  | none => none

/-- `_answer_relationship_query` (chatbot.py lines 355-370). -/
def answerRelationshipQuery (d : ChatData) (text : List Char) :
    Option (List Char) :=
  match relLoop d.relationships (lowerL text) d.relationships with
  | some r => some r
  | none =>
    match searchSimple attWhoIsMy text with
    | some g =>
      let key := spaceToUnd (strip g)
      match dictGet d.relationships key with
      | some name =>
        if name.isEmpty then none
        else some (lc ("Your ") ++ replUnd key ++ lc (" is ") ++ name ++ lc (" 💖"))
      | none => none
    | none => none

/-- The phrase → key table of `_answer_personal_query`
(chatbot.py lines 374-384), in insertion order. -/
def qMap : List (List Char × List Char) :=
  [(lc ("my name"), lc ("user_name")),
   (lc ("who am i"), lc ("user_name")),
   (lc ("my country"), lc ("country")),
   (lc ("what is my country"), lc ("country")),
   (lc ("my city"), lc ("city")),
   (lc ("what is my city"), lc ("city")),
   (lc ("favorite color"), lc ("favorite_color")),
   (lc ("my hobby"), lc ("hobby")),
   (lc ("my age"), lc ("age"))]

def unknownPersonal (key : List Char) : List Char :=
  lc ("I don’t know your ") ++ replUnd key
    ++ lc (" yet. Tell me by saying 'My ") ++ replUnd key ++ lc (" is ...'")

def personalLoop (d : ChatData) (lowText : List Char) :
    List (List Char × List Char) → Option (List Char)
  | [] => none
  | (phrase, key) :: rest =>
    if inStr phrase lowText then
      match getDataVal d key with
      | some v =>
        if v.isEmpty then some (unknownPersonal key)
        else some (lc ("Your ") ++ replUnd key ++ lc (" is ") ++ v ++ lc (" 🌟"))
      | none => some (unknownPersonal key)
    else personalLoop d lowText rest

/-- `_answer_personal_query` (chatbot.py lines 372-392). -/
def answerPersonalQuery (d : ChatData) (text : List Char) : Option (List Char) :=
  personalLoop d (lowerL text) qMap

/-- Temporal-cue tokens of `_contextual_reference` (chatbot.py line 400). -/
def ctxTokens : List (List Char) :=
  [lc ("yesterday"), lc ("earlier"), lc ("before"), lc ("last time"),
   lc ("you told me")]

/-- Attempt of `what did i tell you about (.+)\??`. -/
def attToldAbout (s : List Char) : Option (List Char) :=
  match litCI (lc ("what did i tell you about ")) s with
  | some r =>
    match r with
    | c :: cs => if notNl c then some (c :: cs.takeWhile notNl) else none
    | [] => none
  | none => none

/-- `_contextual_reference` (chatbot.py lines 397-423).  The optional
embedding search is absent (`HAS_EMBED` is false when the import fails),
so that branch degrades to the not-found reply. -/
def contextualReference (st : Chatbot) (text : List Char) : Option (List Char) :=
  let low := lowerL text
  if ctxTokens.any (fun tok => inStr tok low) then
    match st.context.reverse.find? (fun e => decide (2 < countWords e.user)) with
    | some e =>
      some (lc ("You mentioned earlier: \"") ++ e.user
              ++ lc ("\" — would you like to continue that topic?"))
    | none =>
      some (lc ("I remember bits of our last chats — what would you like to continue?"))
  else
    match searchSimple attToldAbout text with
    | some g =>
      let topic := strip g
      match st.data.conversations.reverse.find?
          (fun c => inStr (lowerL topic) (lowerL c.user)) with
      | some e =>
        some (lc ("You told me: \"") ++ e.user ++ lc ("\" — I replied: \"")
                ++ e.ai ++ lc ("\" on ") ++ e.time)
      | none =>
        some (lc ("I don't see that in my recent chats. Want to tell me about it now?"))
    | none => none

/-- The phrase → knowledge-key table of step 8 of `get_response`
(chatbot.py lines 492-505), in insertion order. -/
def helpMap : List (List Char × List Char) :=
  [(lc ("how do i convert pdf to word"), lc ("pdf_to_word")),
   (lc ("convert pdf to word"), lc ("pdf_to_word")),
   (lc ("how to convert pdf to word"), lc ("pdf_to_word")),
   (lc ("pdf to word"), lc ("pdf_to_word")),
   (lc ("word to pdf"), lc ("word_to_pdf")),
   (lc ("pdf to image"), lc ("pdf_to_image")),
   (lc ("images to pdf"), lc ("images_to_pdf")),
   (lc ("merge pdf"), lc ("merge_pdfs")),
   (lc ("split pdf"), lc ("split_pdf")),
   (lc ("compress pdf"), lc ("compress_pdf")),
   (lc ("what can you do"), lc ("ai_assistant")),
   (lc ("who made you"), lc ("about"))]

/-- Step 8 loop of `get_response` (chatbot.py lines 507-513): a phrase hit
answers only when the knowledge base holds a truthy entry for its key;
otherwise the loop continues. -/
def helpLoop (d : ChatData) (lowText : List Char) :
    List (List Char × List Char) → Option (List Char)
  | [] => none
  | (phrase, key) :: rest =>
    if inStr phrase lowText then
      match dictGet d.flexipdf_knowledge key with
      | some answer =>
        if answer.isEmpty then helpLoop d lowText rest
        else some (answer ++ lc (" If you'd like, I can guide you step-by-step."))
      | none => helpLoop d lowText rest
    else helpLoop d lowText rest

/-- The mood alternation of step 9's first regex. -/
def moodKws : List (List Char) :=
  [lc ("sad"), lc ("happy"), lc ("angry"), lc ("tired"), lc ("bored"),
   lc ("excited")]

/-- Attempt of `\b(i am|i'm)\s+(sad|happy|angry|tired|bored|excited)\b`
(chatbot.py line 516). -/
def attEmotion1 (prev : Option Char) (s : List Char) : Option Unit :=
  if bdryOk prev then
    match (match litCI (lc ("i am")) s with
           | some t => some t
           | none => litCI (lc ("i'm")) s) with
    | some t =>
      match t.takeWhile isSpc, t.dropWhile isSpc with
      | [], _ => none
      | _ :: _, rest =>
        if moodKws.any (fun kw => kwAtStart kw rest) then some () else none
    | none => none
  else none

/-- Attempt of `\b(i am|i'm)\s+(\w+)\b` (chatbot.py line 517), returning
group 2 (the `\b` after a maximal `\w+` run always holds). -/
def attEmotion2 (prev : Option Char) (s : List Char) : Option (List Char) :=
  if bdryOk prev then
    match (match litCI (lc ("i am")) s with
           | some t => some t
           | none => litCI (lc ("i'm")) s) with
    | some t =>
      match t.takeWhile isSpc, t.dropWhile isSpc with
      | [], _ => none
      | _ :: _, rest =>
        match rest with
        | c :: cs => if isWordChar c then some (c :: cs.takeWhile isWordChar) else none
        | [] => none
    | none => none
  else none

/-- The fixed mood replies (chatbot.py lines 520-527). -/
def moodReplies : List (List Char × List Char) :=
  [(lc ("sad"), lc ("Oh no 😢 I'm here for you — want to tell me what's wrong?")),
   (lc ("happy"), lc ("Yay 😄 I'm happy for you!")),
   (lc ("angry"), lc ("Take a deep breath 😤 — I’m with you.")),
   (lc ("tired"), lc ("Maybe a short break will help 💤")),
   (lc ("bored"), lc ("Let’s do something fun — want a joke or a fact?")),
   (lc ("excited"), lc ("Awesome! Tell me what's got you excited 🎉"))]

/-- Step 9 of `get_response` (chatbot.py lines 516-531): the trigger regex
over the lowercased text, then the broader `(\w+)` regex (which may hit an
earlier position), then the fixed mood table; a miss anywhere falls
through. -/
def emotionReply (lowText : List Char) : Option (List Char) :=
  match searchAux attEmotion1 none lowText with
  | some _ =>
    match searchAux attEmotion2 none lowText with
    | some w =>
      match dictGet moodReplies (lowerL w) with
      | some reply => some reply
      | none => none
    | none => none
  | none => none

/-- `re.match(r"^(hi|hello|hey|yo|hiya)\b", lower, I)` (chatbot.py
line 534). -/
def greetingHit (t : List Char) : Bool :=
  kwAtStart (lc ("hi")) t || kwAtStart (lc ("hello")) t
    || kwAtStart (lc ("hey")) t || kwAtStart (lc ("yo")) t
    || kwAtStart (lc ("hiya")) t

/-- `re.match(r"(?:tell me about|what do you know about)\s+(.+)", lower, I)`
(chatbot.py line 541). -/
def tellMeTopic (t : List Char) : Option (List Char) :=
  match litCI (lc ("tell me about")) t with
  | some r => matchSpDotPlus r
  | none =>
    match litCI (lc ("what do you know about")) t with
    | some r => matchSpDotPlus r
    | none => none

/-- Python `x or "friend"` over the stored user name (chatbot.py lines 429
and 535). -/
def nameOrFriend (d : ChatData) : List Char :=
  match d.user_name with
  | some s => if s.isEmpty then lc ("friend") else s
  | none => lc ("friend")

/-- `_friendly_fallback` (chatbot.py lines 428-437): deterministic first
template. -/
def friendlyFallback (d : ChatData) : List Char :=
  lc ("Hmm 🤔 interesting, ") ++ nameOrFriend d ++ lc (". Tell me more about that.")

/-- `get_response` (chatbot.py lines 442-560): the reply and the updated
state.  `now` is the timestamp `_remember_conversation` reads from
`datetime.now()`. -/
def getResponse (st : Chatbot) (now : List Char) (userInput : List Char) :
    List Char × Chatbot :=
  if (strip userInput).isEmpty then
    (lc ("Type something for me to respond to ✍️"), st)
  else
    let text := strip userInput
    match learnStructuredFact st.data text with
    | some (reply, d') => (reply, remember { st with data := d' } text reply now)
    | none =>
    match learnFlexipdfKnowledge st.data text with
    | some (reply, d') => (reply, remember { st with data := d' } text reply now)
    | none =>
    match learnFactStatement st.data text with
    | some (reply, d') => (reply, remember { st with data := d' } text reply now)
    | none =>
    match answerRelationshipQuery st.data text with
    | some reply => (reply, remember st text reply now)
    | none =>
    match answerFactQuery st.data text with
    | some reply => (reply, remember st text reply now)
    | none =>
    match answerPersonalQuery st.data text with
    | some reply => (reply, remember st text reply now)
    | none =>
    match contextualReference st text with
    | some reply => (reply, remember st text reply now)
    | none =>
    match helpLoop st.data (lowerL text) helpMap with
    | some reply => (reply, remember st text reply now)
    | none =>
    match emotionReply (lowerL text) with
    | some reply => (reply, remember st text reply now)
    | none =>
    if greetingHit (lowerL text) then
      let reply := lc ("Hey ") ++ nameOrFriend st.data
        ++ lc ("! 👋 I'm Ali — your FlexiPDF AI assistant. How can I help you today?")
      (reply, remember st text reply now)
    else
    match tellMeTopic (lowerL text) with
    | some g =>
      let topic := lowerL (strip g)
      match dictGet st.data.facts topic with
      | some v =>
        let ans := pyCapitalize topic ++ lc (" is ") ++ v
        (ans, remember st text ans now)
      | none =>
        match dictGet st.data.flexipdf_knowledge topic with
        | some v => (v, remember st text v now)
        | none =>
          let rt := lc ("I don't have much on ") ++ topic
            ++ lc (" yet — would you like to teach me? Say: Ali learn '") ++ topic
            ++ lc ("' means <your explanation>")
          (rt, remember st text rt now)
    | none =>
      let fb := friendlyFallback st.data
      (fb, remember st text fb now)

/-- Fold of `_remember_conversation` over a list of exchanges, used to
state the context-buffer claims. -/
def logExchanges (st : Chatbot) (l : List Exchange) : Chatbot :=
  l.foldl (fun b e => remember b e.user e.ai e.time) st

/-- The first non-whitespace word of a line (maximal non-whitespace run
after leading whitespace); used to state claim C4. -/
def firstWord (text : List Char) : List Char :=
  (text.dropWhile isSpc).takeWhile (fun c => !(isSpc c))

/-- Evaluated form of `initBot` (proved equal to it below): on a fresh
instance the seeding loop appends the nine defaults in order. -/
def seededBot (t0 : List Char) : Chatbot :=
  { data := { freshData with
      meta_created_at := some t0,
      flexipdf_knowledge := seedDefaults },
    context := [], ctxSize := 20 }

/-- The teaching command of claim C2. -/
def teachMsg : List Char :=
  lc ("Ali learn 'pdf split' means divide PDF into multiple files")

/-- The confirmation `_learn_flexipdf_knowledge` produces for `teachMsg`. -/
def teachReply : List Char :=
  lc ("Nice! I learned that **pdf split** means: divide PDF into multiple files ✅")

/-- The state of a fresh instance after processing `teachMsg` (evaluated
form, proved equal to the pipeline's output below). -/
def teachState (t0 t1 : List Char) : Chatbot :=
  { data := { freshData with
      meta_created_at := some t0,
      flexipdf_knowledge :=
        seedDefaults ++ [(lc ("pdf_split"), lc ("divide PDF into multiple files"))],
      conversations := [⟨teachMsg, teachReply, t1⟩] },
    context := [⟨teachMsg, teachReply, t1⟩],
    ctxSize := 20 }

/-- The confirmation `_learn_structured_fact` produces for
`My name is <name>` (claim C3). -/
def nameReply (name : List Char) : List Char :=
  lc ("Nice to meet you, ") ++ pyTitle name ++ lc ("! 💫 I'll remember your name.")

/-- The state of a fresh instance after processing `My name is <name>`
(evaluated form, proved equal to the pipeline's output below). -/
def nameState (t0 t1 name : List Char) : Chatbot :=
  { data := { freshData with
      meta_created_at := some t0,
      flexipdf_knowledge := seedDefaults,
      user_name := some (pyTitle name),
      conversations := [⟨lc ("My name is ") ++ name, nameReply name, t1⟩] },
    context := [⟨lc ("My name is ") ++ name, nameReply name, t1⟩],
    ctxSize := 20 }

theorem adoptField_fst (rm : List (String × PyVal)) (kv : String × PyVal) :
    (adoptField rm kv).1 = kv.1 := by
  unfold adoptField
  rcases dictGet rm kv.1 with _ | rv
  · rfl
  · dsimp only
    split
    · rfl
    · split <;> rfl

theorem dictGet_map_adoptField_none {l : List (String × PyVal)}
    (rm : List (String × PyVal)) {k : String}
    (h : dictGet l k = none) : dictGet (l.map (adoptField rm)) k = none := by
  induction l with
  | nil => rfl
  | cons kv rest ih =>
    rcases kv with ⟨k', v⟩
    simp only [dictGet] at h
    by_cases hk : k = k'
    · simp [hk] at h
    · have h2 : dictGet rest k = none := by simpa [hk] using h
      have hfst := adoptField_fst rm (k', v)
      calc dictGet (((k', v) :: rest).map (adoptField rm)) k
          = dictGet (adoptField rm (k', v) :: rest.map (adoptField rm)) k := by
            rw [List.map_cons]
        _ = dictGet ((k', (adoptField rm (k', v)).2) :: rest.map (adoptField rm)) k := by
            rw [show adoptField rm (k', v)
                  = ((adoptField rm (k', v)).1, (adoptField rm (k', v)).2) from rfl, hfst]
        _ = dictGet (rest.map (adoptField rm)) k := by
            simp [dictGet, hk]
        _ = none := ih h2

theorem dictGet_map_replace_ne {κ α : Type} [DecidableEq κ]
    (m : List (κ × α)) (k k' : κ) (v : α) (h : k ≠ k') :
    dictGet (m.map (fun kv => if kv.1 = k' then (k', v) else kv)) k = dictGet m k := by
  induction m with
  | nil => rfl
  | cons kv rest ih =>
    rcases kv with ⟨k1, v1⟩
    rw [List.map_cons]
    by_cases h1 : k1 = k'
    · rw [show (if ((k1, v1) : κ × α).1 = k' then (k', v) else (k1, v1)) = (k', v) by
        simp [h1]]
      have hk1 : ¬ k = k1 := fun hh => h (hh.trans h1)
      simp only [dictGet]
      rw [if_neg h, if_neg hk1]
      exact ih
    · rw [show (if ((k1, v1) : κ × α).1 = k' then (k', v) else (k1, v1)) = (k1, v1) by
        simp [h1]]
      simp only [dictGet]
      by_cases h2 : k = k1
      · rw [if_pos h2, if_pos h2]
      · rw [if_neg h2, if_neg h2]
        exact ih

theorem dictGet_map_replace_self {κ α : Type} [DecidableEq κ]
    (m : List (κ × α)) (k : κ) (v : α) (h : (dictGet m k).isSome) :
    dictGet (m.map (fun kv => if kv.1 = k then (k, v) else kv)) k = some v := by
  induction m with
  | nil => simp [dictGet] at h
  | cons kv rest ih =>
    rcases kv with ⟨k1, v1⟩
    rw [List.map_cons]
    by_cases h1 : k1 = k
    · rw [show (if ((k1, v1) : κ × α).1 = k then (k, v) else (k1, v1)) = (k, v) by
        simp [h1]]
      simp [dictGet]
    · rw [show (if ((k1, v1) : κ × α).1 = k then (k, v) else (k1, v1)) = (k1, v1) by
        simp [h1]]
      have hne : ¬ k = k1 := fun hh => h1 hh.symm
      have h2 : (dictGet rest k).isSome := by
        simpa [dictGet, hne] using h
      simp only [dictGet]
      rw [if_neg hne]
      exact ih h2

theorem dictGet_append_singleton {κ α : Type} [DecidableEq κ]
    (m : List (κ × α)) (k k' : κ) (v : α) :
    dictGet (m ++ [(k', v)]) k
      = match dictGet m k with
        | some w => some w
        | none => if k = k' then some v else none := by
  induction m with
  | nil => rfl
  | cons kv rest ih =>
    rcases kv with ⟨k1, v1⟩
    rw [List.cons_append]
    simp only [dictGet]
    by_cases h1 : k = k1
    · rw [if_pos h1, if_pos h1]
    · rw [if_neg h1, if_neg h1]
      exact ih

theorem dictGet_dictSet_ne {κ α : Type} [DecidableEq κ]
    (m : List (κ × α)) (k k' : κ) (v : α) (h : k ≠ k') :
    dictGet (dictSet m k' v) k = dictGet m k := by
  unfold dictSet
  split
  · exact dictGet_map_replace_ne m k k' v h
  · rw [dictGet_append_singleton]
    rcases hm : dictGet m k with _ | w
    · simp [h]
    · rfl

theorem dictGet_loadFromRaw_none (raw : PyVal) (k : String)
    (hk : k ∉ schemaKeys) : dictGet (loadFromRaw raw) k = none := by
  have hdef : dictGet defaultPy k = none := by
    simp only [schemaKeys, List.mem_cons, List.not_mem_nil, or_false, not_or] at hk
    obtain ⟨h1, h2, h3, h4, h5, h6, h7, h8, h9⟩ := hk
    simp [defaultPy, dictGet, h1, h2, h3, h4, h5, h6, h7, h8, h9]
  have hknc : k ≠ ("conversations") := by
    intro h
    subst h
    simp [schemaKeys] at hk
  have hknm : k ≠ ("meta") := by
    intro h
    subst h
    simp [schemaKeys] at hk
  cases raw with
  | pdict rm =>
    simp only [loadFromRaw]
    split
    · rw [dictGet_dictSet_ne _ _ _ _ hknm]
      exact dictGet_map_adoptField_none rm hdef
    · exact dictGet_map_adoptField_none rm hdef
  | plist l =>
    simp only [loadFromRaw]
    rw [dictGet_dictSet_ne _ _ _ _ hknc]
    exact hdef
  | pnone =>
    simp only [loadFromRaw]
    rw [dictGet_dictSet_ne _ _ _ _ hknc]
    exact hdef
  | pstr s =>
    simp only [loadFromRaw]
    rw [dictGet_dictSet_ne _ _ _ _ hknc]
    exact hdef
  | pint n =>
    simp only [loadFromRaw]
    rw [dictGet_dictSet_ne _ _ _ _ hknc]
    exact hdef

theorem dictGet_dictSet_self {κ α : Type} [DecidableEq κ]
    (m : List (κ × α)) (k : κ) (v : α) :
    dictGet (dictSet m k v) k = some v := by
  unfold dictSet
  split
  case isTrue h => exact dictGet_map_replace_self m k v h
  case isFalse h =>
    rw [dictGet_append_singleton]
    rcases hm : dictGet m k with _ | w
    · simp
    · rw [hm] at h
      simp at h


/-- Path lemma for `get_response`: empty or whitespace-only input returns
the prompt and leaves the state untouched. -/
theorem grEmpty (st : Chatbot) (now input : List Char)
    (h : (strip input).isEmpty = true) :
    getResponse st now input
      = (lc ("Type something for me to respond to ✍️"), st) := by
  unfold getResponse
  simp only [h, if_true]

/-- Path lemma for `get_response`: success of stage 1 returns its
confirmation and logs the exchange on the mutated data. -/
theorem grStruct (st : Chatbot) (now input r : List Char) (d' : ChatData)
    (hne : (strip input).isEmpty = false)
    (hs : learnStructuredFact st.data (strip input) = some (r, d')) :
    getResponse st now input
      = (r, remember { st with data := d' } (strip input) r now) := by
  unfold getResponse
  simp only [hne, Bool.false_eq_true, if_false, hs]

/-- Path lemma for `get_response`: success of stage 2 returns its
confirmation and logs the exchange on the mutated data. -/
theorem grFlexi (st : Chatbot) (now input r : List Char) (d' : ChatData)
    (hne : (strip input).isEmpty = false)
    (h1 : learnStructuredFact st.data (strip input) = none)
    (hs : learnFlexipdfKnowledge st.data (strip input) = some (r, d')) :
    getResponse st now input
      = (r, remember { st with data := d' } (strip input) r now) := by
  unfold getResponse
  simp only [hne, Bool.false_eq_true, if_false, h1, hs]

/-- Path lemma for `get_response`: success of stage 3 returns its
confirmation and logs the exchange on the mutated data. -/
theorem grFactStmt (st : Chatbot) (now input r : List Char) (d' : ChatData)
    (hne : (strip input).isEmpty = false)
    (h1 : learnStructuredFact st.data (strip input) = none)
    (h2 : learnFlexipdfKnowledge st.data (strip input) = none)
    (hs : learnFactStatement st.data (strip input) = some (r, d')) :
    getResponse st now input
      = (r, remember { st with data := d' } (strip input) r now) := by
  unfold getResponse
  simp only [hne, Bool.false_eq_true, if_false, h1, h2, hs]

/-- Path lemma for `get_response`: success of stage 4 returns its
reply and logs the exchange without mutating the data. -/
theorem grRelQ (st : Chatbot) (now input r : List Char)
    (hne : (strip input).isEmpty = false)
    (h1 : learnStructuredFact st.data (strip input) = none)
    (h2 : learnFlexipdfKnowledge st.data (strip input) = none)
    (h3 : learnFactStatement st.data (strip input) = none)
    (hs : answerRelationshipQuery st.data (strip input) = some r) :
    getResponse st now input = (r, remember st (strip input) r now) := by
  unfold getResponse
  simp only [hne, Bool.false_eq_true, if_false, h1, h2, h3, hs]

/-- Path lemma for `get_response`: success of stage 5 returns its
reply and logs the exchange without mutating the data. -/
theorem grFactQ (st : Chatbot) (now input r : List Char)
    (hne : (strip input).isEmpty = false)
    (h1 : learnStructuredFact st.data (strip input) = none)
    (h2 : learnFlexipdfKnowledge st.data (strip input) = none)
    (h3 : learnFactStatement st.data (strip input) = none)
    (h4 : answerRelationshipQuery st.data (strip input) = none)
    (hs : answerFactQuery st.data (strip input) = some r) :
    getResponse st now input = (r, remember st (strip input) r now) := by
  unfold getResponse
  simp only [hne, Bool.false_eq_true, if_false, h1, h2, h3, h4, hs]

/-- Path lemma for `get_response`: success of stage 6 returns its
reply and logs the exchange without mutating the data. -/
theorem grPersonal (st : Chatbot) (now input r : List Char)
    (hne : (strip input).isEmpty = false)
    (h1 : learnStructuredFact st.data (strip input) = none)
    (h2 : learnFlexipdfKnowledge st.data (strip input) = none)
    (h3 : learnFactStatement st.data (strip input) = none)
    (h4 : answerRelationshipQuery st.data (strip input) = none)
    (h5 : answerFactQuery st.data (strip input) = none)
    (hs : answerPersonalQuery st.data (strip input) = some r) :
    getResponse st now input = (r, remember st (strip input) r now) := by
  unfold getResponse
  simp only [hne, Bool.false_eq_true, if_false, h1, h2, h3, h4, h5, hs]

/-- Path lemma for `get_response`: success of stage 7 returns its
reply and logs the exchange without mutating the data. -/
theorem grCtx (st : Chatbot) (now input r : List Char)
    (hne : (strip input).isEmpty = false)
    (h1 : learnStructuredFact st.data (strip input) = none)
    (h2 : learnFlexipdfKnowledge st.data (strip input) = none)
    (h3 : learnFactStatement st.data (strip input) = none)
    (h4 : answerRelationshipQuery st.data (strip input) = none)
    (h5 : answerFactQuery st.data (strip input) = none)
    (h6 : answerPersonalQuery st.data (strip input) = none)
    (hs : contextualReference st (strip input) = some r) :
    getResponse st now input = (r, remember st (strip input) r now) := by
  unfold getResponse
  simp only [hne, Bool.false_eq_true, if_false, h1, h2, h3, h4, h5, h6, hs]

/-- Path lemma for `get_response`: success of stage 8 returns its
reply and logs the exchange without mutating the data. -/
theorem grHelp (st : Chatbot) (now input r : List Char)
    (hne : (strip input).isEmpty = false)
    (h1 : learnStructuredFact st.data (strip input) = none)
    (h2 : learnFlexipdfKnowledge st.data (strip input) = none)
    (h3 : learnFactStatement st.data (strip input) = none)
    (h4 : answerRelationshipQuery st.data (strip input) = none)
    (h5 : answerFactQuery st.data (strip input) = none)
    (h6 : answerPersonalQuery st.data (strip input) = none)
    (h7 : contextualReference st (strip input) = none)
    (hs : helpLoop st.data (lowerL (strip input)) helpMap = some r) :
    getResponse st now input = (r, remember st (strip input) r now) := by
  unfold getResponse
  simp only [hne, Bool.false_eq_true, if_false, h1, h2, h3, h4, h5, h6, h7, hs]

/-- Path lemma for `get_response`: success of stage 9 returns its
reply and logs the exchange without mutating the data. -/
theorem grEmotion (st : Chatbot) (now input r : List Char)
    (hne : (strip input).isEmpty = false)
    (h1 : learnStructuredFact st.data (strip input) = none)
    (h2 : learnFlexipdfKnowledge st.data (strip input) = none)
    (h3 : learnFactStatement st.data (strip input) = none)
    (h4 : answerRelationshipQuery st.data (strip input) = none)
    (h5 : answerFactQuery st.data (strip input) = none)
    (h6 : answerPersonalQuery st.data (strip input) = none)
    (h7 : contextualReference st (strip input) = none)
    (h8 : helpLoop st.data (lowerL (strip input)) helpMap = none)
    (hs : emotionReply (lowerL (strip input)) = some r) :
    getResponse st now input = (r, remember st (strip input) r now) := by
  unfold getResponse
  simp only [hne, Bool.false_eq_true, if_false, h1, h2, h3, h4, h5, h6, h7, h8, hs]

/-- Path lemma for `get_response`: the greeting branch. -/
theorem grGreeting (st : Chatbot) (now input : List Char)
    (hne : (strip input).isEmpty = false)
    (h1 : learnStructuredFact st.data (strip input) = none)
    (h2 : learnFlexipdfKnowledge st.data (strip input) = none)
    (h3 : learnFactStatement st.data (strip input) = none)
    (h4 : answerRelationshipQuery st.data (strip input) = none)
    (h5 : answerFactQuery st.data (strip input) = none)
    (h6 : answerPersonalQuery st.data (strip input) = none)
    (h7 : contextualReference st (strip input) = none)
    (h8 : helpLoop st.data (lowerL (strip input)) helpMap = none)
    (h9 : emotionReply (lowerL (strip input)) = none)
    (hg : greetingHit (lowerL (strip input)) = true) :
    getResponse st now input
      = (lc ("Hey ") ++ nameOrFriend st.data
          ++ lc ("! 👋 I'm Ali — your FlexiPDF AI assistant. How can I help you today?"),
         remember st (strip input)
           (lc ("Hey ") ++ nameOrFriend st.data
             ++ lc ("! 👋 I'm Ali — your FlexiPDF AI assistant. How can I help you today?")) now) := by
  unfold getResponse
  simp only [hne, Bool.false_eq_true, if_false, h1, h2, h3, h4, h5, h6, h7, h8, h9, hg, if_true, if_false]

/-- Path lemma for `get_response`: `tell me about` over a known fact. -/
theorem grTellFact (st : Chatbot) (now input g v : List Char)
    (hne : (strip input).isEmpty = false)
    (h1 : learnStructuredFact st.data (strip input) = none)
    (h2 : learnFlexipdfKnowledge st.data (strip input) = none)
    (h3 : learnFactStatement st.data (strip input) = none)
    (h4 : answerRelationshipQuery st.data (strip input) = none)
    (h5 : answerFactQuery st.data (strip input) = none)
    (h6 : answerPersonalQuery st.data (strip input) = none)
    (h7 : contextualReference st (strip input) = none)
    (h8 : helpLoop st.data (lowerL (strip input)) helpMap = none)
    (h9 : emotionReply (lowerL (strip input)) = none)
    (hg : greetingHit (lowerL (strip input)) = false)
    (ht : tellMeTopic (lowerL (strip input)) = some g)
    (hf : dictGet st.data.facts (lowerL (strip g)) = some v) :
    getResponse st now input
      = (pyCapitalize (lowerL (strip g)) ++ lc (" is ") ++ v,
         remember st (strip input)
           (pyCapitalize (lowerL (strip g)) ++ lc (" is ") ++ v) now) := by
  unfold getResponse
  simp only [hne, Bool.false_eq_true, if_false, h1, h2, h3, h4, h5, h6, h7, h8, h9, hg, if_true, if_false, ht, hf]

/-- Path lemma for `get_response`: `tell me about` over a knowledge-base
entry. -/
theorem grTellKnow (st : Chatbot) (now input g v : List Char)
    (hne : (strip input).isEmpty = false)
    (h1 : learnStructuredFact st.data (strip input) = none)
    (h2 : learnFlexipdfKnowledge st.data (strip input) = none)
    (h3 : learnFactStatement st.data (strip input) = none)
    (h4 : answerRelationshipQuery st.data (strip input) = none)
    (h5 : answerFactQuery st.data (strip input) = none)
    (h6 : answerPersonalQuery st.data (strip input) = none)
    (h7 : contextualReference st (strip input) = none)
    (h8 : helpLoop st.data (lowerL (strip input)) helpMap = none)
    (h9 : emotionReply (lowerL (strip input)) = none)
    (hg : greetingHit (lowerL (strip input)) = false)
    (ht : tellMeTopic (lowerL (strip input)) = some g)
    (hf : dictGet st.data.facts (lowerL (strip g)) = none)
    (hk : dictGet st.data.flexipdf_knowledge (lowerL (strip g)) = some v) :
    getResponse st now input = (v, remember st (strip input) v now) := by
  unfold getResponse
  simp only [hne, Bool.false_eq_true, if_false, h1, h2, h3, h4, h5, h6, h7, h8, h9, hg, if_true, if_false, ht, hf, hk]

/-- Path lemma for `get_response`: `tell me about` over an unknown topic
invites teaching. -/
theorem grTellInvite (st : Chatbot) (now input g : List Char)
    (hne : (strip input).isEmpty = false)
    (h1 : learnStructuredFact st.data (strip input) = none)
    (h2 : learnFlexipdfKnowledge st.data (strip input) = none)
    (h3 : learnFactStatement st.data (strip input) = none)
    (h4 : answerRelationshipQuery st.data (strip input) = none)
    (h5 : answerFactQuery st.data (strip input) = none)
    (h6 : answerPersonalQuery st.data (strip input) = none)
    (h7 : contextualReference st (strip input) = none)
    (h8 : helpLoop st.data (lowerL (strip input)) helpMap = none)
    (h9 : emotionReply (lowerL (strip input)) = none)
    (hg : greetingHit (lowerL (strip input)) = false)
    (ht : tellMeTopic (lowerL (strip input)) = some g)
    (hf : dictGet st.data.facts (lowerL (strip g)) = none)
    (hk : dictGet st.data.flexipdf_knowledge (lowerL (strip g)) = none) :
    getResponse st now input
      = (lc ("I don't have much on ") ++ lowerL (strip g)
           ++ lc (" yet — would you like to teach me? Say: Ali learn '")
           ++ lowerL (strip g) ++ lc ("' means <your explanation>"),
         remember st (strip input)
           (lc ("I don't have much on ") ++ lowerL (strip g)
             ++ lc (" yet — would you like to teach me? Say: Ali learn '")
             ++ lowerL (strip g) ++ lc ("' means <your explanation>")) now) := by
  unfold getResponse
  simp only [hne, Bool.false_eq_true, if_false, h1, h2, h3, h4, h5, h6, h7, h8, h9, hg, if_true, if_false, ht, hf, hk]

/-- Path lemma for `get_response`: the friendly fallback. -/
theorem grFallback (st : Chatbot) (now input : List Char)
    (hne : (strip input).isEmpty = false)
    (h1 : learnStructuredFact st.data (strip input) = none)
    (h2 : learnFlexipdfKnowledge st.data (strip input) = none)
    (h3 : learnFactStatement st.data (strip input) = none)
    (h4 : answerRelationshipQuery st.data (strip input) = none)
    (h5 : answerFactQuery st.data (strip input) = none)
    (h6 : answerPersonalQuery st.data (strip input) = none)
    (h7 : contextualReference st (strip input) = none)
    (h8 : helpLoop st.data (lowerL (strip input)) helpMap = none)
    (h9 : emotionReply (lowerL (strip input)) = none)
    (hg : greetingHit (lowerL (strip input)) = false)
    (ht : tellMeTopic (lowerL (strip input)) = none) :
    getResponse st now input
      = (friendlyFallback st.data,
         remember st (strip input) (friendlyFallback st.data) now) := by
  unfold getResponse
  simp only [hne, Bool.false_eq_true, if_false, h1, h2, h3, h4, h5, h6, h7, h8, h9, hg, if_true, if_false, ht]

/-- The seeding loop of `_seed_flexipdf_knowledge` over keys that are all
absent from the accumulator (and pairwise distinct) appends the defaults
in order. -/
theorem seed_foldl_append (ds : List (List Char × List Char)) :
    ∀ m : List (List Char × List Char),
    (∀ kv ∈ ds, dictGet m kv.1 = none) →
    ds.Pairwise (fun a b => a.1 ≠ b.1) →
    ds.foldl (fun m kv => if (dictGet m kv.1).isSome then m
      else dictSet m kv.1 kv.2) m = m ++ ds := by
  induction ds with
  | nil => intro m _ _; simp
  | cons kv rest ih =>
    intro m h hp
    rw [List.pairwise_cons] at hp
    obtain ⟨hhead, htail⟩ := hp
    have hkv : dictGet m kv.1 = none := h kv (List.mem_cons_self _ _)
    have hset : dictSet m kv.1 kv.2 = m ++ [kv] := by
      unfold dictSet
      rw [hkv]
      simp
    simp only [List.foldl, hkv, Option.isSome_none, Bool.false_eq_true, if_false, hset]
    rw [ih (m ++ [kv]) ?_ htail]
    · simp
    · intro kv' hkv'
      rw [dictGet_append_singleton, h kv' (List.mem_cons_of_mem _ hkv'),
        if_neg (fun he => hhead kv' hkv' he.symm)]

/-- Evaluation of `initBot`: constructing a fresh instance seeds exactly
the nine default knowledge entries, in order. -/
theorem initBot_eq (t0 : List Char) : initBot t0 = seededBot t0 := by
  have hf : seedDefaults.foldl
      (fun m kv => if (dictGet m kv.1).isSome then m else dictSet m kv.1 kv.2)
      (({ freshData with meta_created_at := some t0 } : ChatData).flexipdf_knowledge)
      = seedDefaults := by
    rw [seed_foldl_append seedDefaults
      (({ freshData with meta_created_at := some t0 } : ChatData).flexipdf_knowledge)
      (fun kv _ => rfl) (by decide)]
    rfl
  simp only [initBot, seedKnowledge, seededBot, hf]

/-- Helper for claim C2: `_learn_flexipdf_knowledge` on the teaching
command extracts key `pdf_split` and the explanation, and stores them. -/
theorem lfk_teach (d : ChatData) :
    learnFlexipdfKnowledge d teachMsg
      = some (teachReply,
          { d with flexipdf_knowledge := (dictSet d.flexipdf_knowledge
              (lc ("pdf_split")) (lc ("divide PDF into multiple files"))) }) := by
  have hs : searchSimple attAliLearn teachMsg
      = some (lc ("pdf split"), lc ("divide PDF into multiple files")) := rfl
  have hkey : spaceToUnd (lowerL (strip (lc ("pdf split")))) = lc ("pdf_split") := rfl
  have hexp : rstripPunct (strip (lc ("divide PDF into multiple files")))
      = lc ("divide PDF into multiple files") := rfl
  unfold learnFlexipdfKnowledge
  rw [hs]
  simp only [hkey, hexp]
  rfl

/-- Helper for claim C2: processing the teaching command on a fresh
instance yields the teaching confirmation and the explicitly evaluated
state `teachState`. -/
theorem getResponse_teach (t0 t1 : List Char) :
    getResponse (initBot t0) t1 teachMsg = (teachReply, teachState t0 t1) := by
  rw [initBot_eq]
  have hne : (strip teachMsg).isEmpty = false := rfl
  have h1 : learnStructuredFact (seededBot t0).data (strip teachMsg) = none := rfl
  refine (grFlexi (seededBot t0) t1 teachMsg teachReply _ hne h1
    (lfk_teach (seededBot t0).data)).trans ?_
  rfl

/-- C1: the claim asserts that `load()` adopts a record field whenever its
shape matches the default's shape, and that in particular the profile
scalars written by `save()` (e.g. `user_name`) survive a save-then-load
round trip.  The code disagrees: at load time the defaults for
`user_name`, `country`, `city`, `language` are `None`, so
`isinstance(raw[k], type(self.data[k]))` compares against `NoneType` and a
saved string value never passes; the default `None` is kept.  This theorem
evaluates the embedded `_load_or_init_memory` on exactly the record
`_save_memory` writes after a name has been learned: the record holds the
string, the loaded state does not. -/
theorem load_drops_saved_scalars (s : String) :
    dictGet (dictSet defaultPy ("user_name") (PyVal.pstr s)) ("user_name")
      = some (PyVal.pstr s)
  ∧ dictGet (loadFromRaw (saveOf (dictSet defaultPy ("user_name") (PyVal.pstr s))))
      ("user_name") = some PyVal.pnone := by
  constructor
  · rfl
  · rfl

/-- C9: `load()` adopts only the nine top-level keys of the default schema;
an open profile attribute stored by `_learn_structured_fact` as a new
top-level key (here `favorite_color`) is present in the saved record but
absent after any load, so a save-then-load round trip loses it. -/
theorem open_attributes_not_reloaded (d : List (String × PyVal)) (v : String) :
    dictGet (dictSet d ("favorite_color") (PyVal.pstr v)) ("favorite_color")
      = some (PyVal.pstr v)
  ∧ (∀ (raw : PyVal) (k : String), k ∉ schemaKeys →
      dictGet (loadFromRaw raw) k = none)
  ∧ dictGet (loadFromRaw (saveOf (dictSet d ("favorite_color") (PyVal.pstr v))))
      ("favorite_color") = none := by
  refine ⟨dictGet_dictSet_self d _ _, dictGet_loadFromRaw_none, ?_⟩
  exact dictGet_loadFromRaw_none _ _ (by decide)

/-- C9 witness: instantiation at a concrete store and value, discharging
the non-schema-key hypothesis at `favorite_color`. -/
theorem open_attributes_not_reloaded_witness :
    (("favorite_color") ∉ schemaKeys)
  ∧ dictGet (dictSet defaultPy ("favorite_color") (PyVal.pstr ("Blue")))
      ("favorite_color") = some (PyVal.pstr ("Blue"))
  ∧ dictGet (loadFromRaw (saveOf (dictSet defaultPy ("favorite_color")
      (PyVal.pstr ("Blue"))))) ("favorite_color") = none :=
  ⟨by decide,
   (open_attributes_not_reloaded defaultPy ("Blue")).1,
   (open_attributes_not_reloaded defaultPy ("Blue")).2.2⟩

/-- C10: the question-word guard of `_learn_fact_statement` covers only
what/who/why/how, so the question `where is my phone` is captured by the
generic fact extractor: `get_response` on a fresh instance stores the Fact
Table entry `where → my phone` and returns the learned-fact confirmation
instead of treating the line as a question. -/
theorem where_is_learned_as_fact (t0 t1 : List Char) :
    (getResponse (initBot t0) t1 (lc ("where is my phone"))).1
      = lc ("Got it! I’ve learned that **where** is **my phone** 🧠")
  ∧ dictGet (getResponse (initBot t0) t1 (lc ("where is my phone"))).2.data.facts
      (lc ("where")) = some (lc ("my phone")) :=
  ⟨rfl, rfl⟩

/-- C2 counterexample: after the teaching command is processed the
Knowledge Base does map `pdf_split` to the taught explanation, but the
subsequent input `split pdf` does NOT surface it: the help table of
`get_response` maps the phrase `split pdf` to the seeded key `split_pdf`,
not to the taught key `pdf_split`, so the reply never contains the taught
text. -/
theorem taught_key_not_surfaced :
    dictGet ((getResponse (initBot (lc ("2024-01-01"))) (lc ("2024-01-01"))
        teachMsg).2).data.flexipdf_knowledge
      (lc ("pdf_split")) = some (lc ("divide PDF into multiple files"))
  ∧ inStr (lc ("divide PDF into multiple files"))
      ((getResponse ((getResponse (initBot (lc ("2024-01-01"))) (lc ("2024-01-01"))
          teachMsg).2) (lc ("2024-01-02")) (lc ("split pdf"))).1) = false := by
  rw [getResponse_teach]
  exact ⟨rfl, rfl⟩

/-- C2 amended: the teaching command stores Knowledge Base key
`pdf_split → divide PDF into multiple files`; a later `split pdf` input
returns the seeded `split_pdf` explanation (with the guide suffix), not
the taught one; the taught explanation is surfaced by a definitional query
naming the underscored key, e.g. `what is pdf_split`. -/
theorem teach_then_split_pdf_behavior (t0 t1 t2 t3 : List Char) :
    dictGet ((getResponse (initBot t0) t1 teachMsg).2).data.flexipdf_knowledge
      (lc ("pdf_split")) = some (lc ("divide PDF into multiple files"))
  ∧ (getResponse ((getResponse (initBot t0) t1 teachMsg).2) t2
      (lc ("split pdf"))).1
      = lc ("Split a PDF into multiple smaller PDF files by page ranges. If you'd like, I can guide you step-by-step.")
  ∧ (getResponse ((getResponse (initBot t0) t1 teachMsg).2) t3
      (lc ("what is pdf_split"))).1
      = lc ("Pdf split: divide PDF into multiple files") := by
  rw [getResponse_teach]
  exact ⟨rfl, rfl, rfl⟩

/-- C7: resetting twice yields the default state both times (identical
states when the two reset timestamps agree), the same confirmation both
times, and the Context Buffer is empty after each reset. -/
theorem reset_idempotent_defaults (st : Chatbot) (t t' : List Char) :
    (resetMemory st t).2.context = []
  ∧ (resetMemory st t).2.data = defaultData t
  ∧ (resetMemory (resetMemory st t).2 t').2.context = []
  ∧ (resetMemory (resetMemory st t).2 t').2.data = defaultData t'
  ∧ (t' = t → (resetMemory (resetMemory st t).2 t').2 = (resetMemory st t).2)
  ∧ (resetMemory (resetMemory st t).2 t').1 = (resetMemory st t).1 := by
  refine ⟨rfl, rfl, rfl, rfl, ?_, rfl⟩
  intro h
  subst h
  rfl

/-- C7 witness: double reset at the same concrete timestamp yields
identical states. -/
theorem reset_idempotent_defaults_witness :
    lc ("2024-05-05 10:00:00") = lc ("2024-05-05 10:00:00")
  ∧ (resetMemory (resetMemory (initBot (lc ("t0"))) (lc ("2024-05-05 10:00:00"))).2
      (lc ("2024-05-05 10:00:00"))).2
      = (resetMemory (initBot (lc ("t0"))) (lc ("2024-05-05 10:00:00"))).2 :=
  ⟨rfl, (reset_idempotent_defaults (initBot (lc ("t0")))
    (lc ("2024-05-05 10:00:00")) (lc ("2024-05-05 10:00:00"))).2.2.2.2.1 rfl⟩

/-- C8: `reset_memory` empties the Knowledge Base and does not re-seed it
(seeding happens only in `__init__`), so after a reset every lookup in it
misses and both the help phrase `split pdf` and the knowledge query
`what is split_pdf` fall through to the friendly fallback. -/
theorem reset_empties_knowledge_base (st : Chatbot) (t tq : List Char) :
    (resetMemory st t).2.data.flexipdf_knowledge = []
  ∧ (∀ k, dictGet (resetMemory st t).2.data.flexipdf_knowledge k = none)
  ∧ (getResponse (resetMemory st t).2 tq (lc ("split pdf"))).1
      = lc ("Hmm 🤔 interesting, friend. Tell me more about that.")
  ∧ (getResponse (resetMemory st t).2 tq (lc ("what is split_pdf"))).1
      = lc ("Hmm 🤔 interesting, friend. Tell me more about that.") :=
  ⟨rfl, fun _ => rfl, rfl, rfl⟩

/-- `deque(maxlen=n)` append keeps the length within the capacity. -/
theorem ctxAppend_length_le (n : Nat) (b : List Exchange) (e : Exchange)
    (h : b.length ≤ n) : (ctxAppend n b e).length ≤ n := by
  simp only [ctxAppend]
  split
  case isTrue hle => exact hle
  case isFalse hgt =>
    rw [List.length_drop]
    omega

/-- Folding `deque(maxlen=n)` appends keeps the length within the
capacity. -/
theorem foldl_ctxAppend_length_le (n : Nat) (l : List Exchange) :
    ∀ b : List Exchange, b.length ≤ n →
      (l.foldl (ctxAppend n) b).length ≤ n := by
  induction l with
  | nil => intro b h; exact h
  | cons e rest ih =>
    intro b h
    exact ih (ctxAppend n b e) (ctxAppend_length_le n b e h)

/-- Folding `deque(maxlen=n)` appends from an empty deque retains exactly
the most recent `n` entries, in order. -/
theorem foldl_ctxAppend_nil (n : Nat) (l : List Exchange) :
    l.foldl (ctxAppend n) [] = l.drop (l.length - n) := by
  induction l using List.reverseRecOn with
  | nil => simp
  | append_singleton l' e ih =>
    rw [List.foldl_append, List.foldl_cons, List.foldl_nil, ih]
    simp only [ctxAppend, List.length_append, List.length_drop, List.length_cons,
      List.length_nil, Nat.zero_add]
    by_cases hA : l'.length + 1 ≤ n
    · rw [if_pos (by omega)]
      have h0 : l'.length - n = 0 := by omega
      have h1 : l'.length + 1 - n = 0 := by omega
      rw [h0, h1, List.drop_zero, List.drop_zero]
    · rw [if_neg (by omega)]
      by_cases hn : n = 0
      · subst hn
        refine (List.drop_eq_nil_of_le ?_).trans (List.drop_eq_nil_of_le ?_).symm
        · simp only [List.length_append, List.length_drop, List.length_cons,
            List.length_nil]
          omega
        · simp only [List.length_append, List.length_cons, List.length_nil]
          omega
      · have hd : l'.length - (l'.length - n) + 1 - n = 1 := by omega
        rw [hd, List.drop_append_of_le_length (by rw [List.length_drop]; omega),
          List.drop_drop, List.drop_append_of_le_length (by omega)]
        have hidx : l'.length - n + 1 = l'.length + 1 - n := by omega
        rw [hidx]

/-- The context of a fold of `_remember_conversation` is the fold of the
deque appends, and the capacity never changes. -/
theorem logExchanges_context (l : List Exchange) :
    ∀ st : Chatbot,
      (logExchanges st l).context = l.foldl (ctxAppend st.ctxSize) st.context
      ∧ (logExchanges st l).ctxSize = st.ctxSize := by
  induction l with
  | nil => intro st; exact ⟨rfl, rfl⟩
  | cons e rest ih =>
    intro st
    have h := ih (remember st e.user e.ai e.time)
    constructor
    · rw [show logExchanges st (e :: rest)
          = logExchanges (remember st e.user e.ai e.time) rest from rfl, h.1]
      rfl
    · rw [show logExchanges st (e :: rest)
          = logExchanges (remember st e.user e.ai e.time) rest from rfl, h.2]
      rfl

/-- C5: the Context Buffer never exceeds its configured capacity however
many exchanges are logged, and after logging `ctxSize + 1` exchanges into
an empty buffer it holds exactly the most recent `ctxSize` of them in
logging order, so the oldest logged exchange is absent (when the logged
exchanges are distinct). -/
theorem context_buffer_capacity (st : Chatbot) (l : List Exchange)
    (h0 : st.context = []) (hlen : l.length = st.ctxSize + 1) :
    (∀ l' : List Exchange, ((logExchanges st l').context).length ≤ st.ctxSize)
  ∧ (logExchanges st l).context = l.drop 1
  ∧ (l.Nodup → ∀ e, l.head? = some e → e ∉ (logExchanges st l).context) := by
  have hctx : ∀ l' : List Exchange,
      (logExchanges st l').context = l'.drop (l'.length - st.ctxSize) := by
    intro l'
    rw [(logExchanges_context l' st).1, h0, foldl_ctxAppend_nil]
  have hdrop : (logExchanges st l).context = l.drop 1 := by
    rw [hctx l, hlen]
    have h1 : st.ctxSize + 1 - st.ctxSize = 1 := by omega
    rw [h1]
  refine ⟨?_, hdrop, ?_⟩
  · intro l'
    rw [(logExchanges_context l' st).1, h0]
    exact foldl_ctxAppend_length_le st.ctxSize l' [] (by simp)
  · intro hnd e he
    rw [hdrop]
    cases l with
    | nil => simp at he
    | cons a t =>
      simp only [List.head?_cons, Option.some_inj] at he
      subst he
      rw [List.nodup_cons] at hnd
      simpa using hnd.1

/-- C5 witness: on a fresh instance (capacity 20), logging 21 distinct
exchanges leaves the 20 most recent in order and evicts the first. -/
theorem context_buffer_capacity_witness :
    (initBot (lc ("t"))).context = []
  ∧ (((List.range 21).map
        (fun i => (⟨[Char.ofNat (97 + i)], [], []⟩ : Exchange))).length
      = (initBot (lc ("t"))).ctxSize + 1)
  ∧ ((List.range 21).map
        (fun i => (⟨[Char.ofNat (97 + i)], [], []⟩ : Exchange))).Nodup
  ∧ (logExchanges (initBot (lc ("t")))
        ((List.range 21).map
          (fun i => (⟨[Char.ofNat (97 + i)], [], []⟩ : Exchange)))).context
      = ((List.range 21).map
          (fun i => (⟨[Char.ofNat (97 + i)], [], []⟩ : Exchange))).drop 1
  ∧ (⟨[Char.ofNat 97], [], []⟩ : Exchange) ∉
      (logExchanges (initBot (lc ("t")))
        ((List.range 21).map
          (fun i => (⟨[Char.ofNat (97 + i)], [], []⟩ : Exchange)))).context := by
  refine ⟨rfl, by decide, by decide, ?_, ?_⟩
  · exact (context_buffer_capacity (initBot (lc ("t"))) _ rfl (by decide)).2.1
  · exact (context_buffer_capacity (initBot (lc ("t"))) _ rfl (by decide)).2.2
      (by decide) _ (by decide)

/-- A case-insensitive literal match succeeds on any text whose lowering
is the literal, leaving the rest. -/
theorem litCI_of_lower : ∀ (tok rest : List Char),
    litCI (tok.map Char.toLower) (tok ++ rest) = some rest := by
  intro tok
  induction tok with
  | nil => intro rest; rfl
  | cons c cs ih =>
    intro rest
    simp only [List.map_cons, List.cons_append, litCI, if_pos rfl]
    exact ih rest

/-- The head of a `dropWhile` result falsifies the predicate. -/
theorem head_dropWhile_false {α : Type} (p : α → Bool) :
    ∀ (l : List α) (c : α) (cs : List α), l.dropWhile p = c :: cs → p c = false := by
  intro l
  induction l with
  | nil => intro c cs h; simp [List.dropWhile] at h
  | cons a as ih =>
    intro c cs h
    by_cases hp : p a = true
    · rw [List.dropWhile_cons, if_pos hp] at h
      exact ih c cs h
    · rw [List.dropWhile_cons, if_neg hp] at h
      cases h
      exact Bool.not_eq_true _ |>.mp hp

/-- Whitespace characters are not word characters. -/
theorem isSpc_not_word (c : Char) (h : isSpc c = true) : isWordChar c = false := by
  simp only [isSpc, Bool.or_eq_true, decide_eq_true_eq] at h
  rcases h with ((((h | h) | h) | h) | h) | h <;> subst h <;> decide

/-- When the lowered first word is `kw` (one of the four guard keywords),
the guard's keyword test succeeds. -/
theorem kwAtStart_of_firstWord (text : List Char) (kw : List Char)
    (h : lowerL (firstWord text) = kw) :
    kwAtStart kw (text.dropWhile isSpc) = true := by
  have hsplit := List.takeWhile_append_dropWhile
    (fun c => !(isSpc c)) (text.dropWhile isSpc)
  rw [kwAtStart, ← hsplit, ← h]
  rw [show lowerL (firstWord text) = (firstWord text).map Char.toLower from rfl]
  rw [firstWord, litCI_of_lower]
  rcases hr : ((text.dropWhile isSpc).dropWhile (fun c => !(isSpc c))) with _ | ⟨c, cs⟩
  · rfl
  · have hc : (!(isSpc c)) = false := head_dropWhile_false _ _ c cs hr
    have hcs : isSpc c = true := by
      rcases hb : isSpc c
      · rw [hb] at hc; simp at hc
      · rfl
    simp [isSpc_not_word c hcs]

/-- C4: an input whose first non-whitespace word is `what`, `who`, `why`
or `how` (case-insensitively) is rejected by `_learn_fact_statement`: the
question-word guard fires, the extractor returns the no-match signal, and
the Fact Table is untouched (the returned state mutation is `none`). -/
theorem question_word_guard_blocks_fact (d : ChatData) (text : List Char)
    (h : lowerL (firstWord text) = lc ("what")
       ∨ lowerL (firstWord text) = lc ("who")
       ∨ lowerL (firstWord text) = lc ("why")
       ∨ lowerL (firstWord text) = lc ("how")) :
    learnFactStatement d text = none := by
  have hguard : questionGuard text = true := by
    unfold questionGuard
    rcases h with h | h | h | h <;>
      simp [kwAtStart_of_firstWord text _ h]
  unfold learnFactStatement
  rw [hguard, if_pos rfl]

/-- C4 witness: `What is love` starts with the question word `what`, so
the generic fact extractor returns the no-match signal on it. -/
theorem question_word_guard_blocks_fact_witness :
    lowerL (firstWord (lc ("What is love"))) = lc ("what")
  ∧ learnFactStatement freshData (lc ("What is love")) = none :=
  ⟨by decide,
   question_word_guard_blocks_fact freshData (lc ("What is love"))
     (Or.inl (by decide))⟩

/-- `self.data[key] = stored` never touches the conversation log. -/
theorem setDataKey_conversations (d : ChatData) (k v : List Char) :
    (setDataKey d k v).conversations = d.conversations := by
  unfold setDataKey
  split_ifs <;> rfl

/-- The structured-pattern loop never touches the conversation log. -/
theorem tryStructPatterns_conversations (d : ChatData) (text r : List Char)
    (d' : ChatData) :
    ∀ ps, tryStructPatterns d text ps = some (r, d') →
      d'.conversations = d.conversations := by
  intro ps
  induction ps with
  | nil => intro h; simp [tryStructPatterns] at h
  | cons p rest ih =>
    rcases p with ⟨f, key⟩
    intro h
    rcases hf : f text with _ | g
    · simp only [tryStructPatterns, hf] at h
      exact ih h
    · simp only [tryStructPatterns, hf, Option.some.injEq, Prod.mk.injEq] at h
      rw [← h.2]
      exact setDataKey_conversations d key _

/-- The relationship-pattern loop never touches the conversation log. -/
theorem tryRelPatterns_conversations (d : ChatData) (text r : List Char)
    (d' : ChatData) :
    ∀ ps, tryRelPatterns d text ps = some (r, d') →
      d'.conversations = d.conversations := by
  intro ps
  induction ps with
  | nil => intro h; simp [tryRelPatterns] at h
  | cons p rest ih =>
    rcases p with ⟨f, key⟩
    intro h
    rcases hf : f text with _ | g
    · simp only [tryRelPatterns, hf] at h
      exact ih h
    · simp only [tryRelPatterns, hf, Option.some.injEq, Prod.mk.injEq] at h
      rw [← h.2]

/-- `_learn_structured_fact` never touches the conversation log. -/
theorem learnStructuredFact_conversations (d : ChatData) (text r : List Char)
    (d' : ChatData) (h : learnStructuredFact d text = some (r, d')) :
    d'.conversations = d.conversations := by
  unfold learnStructuredFact at h
  rcases hs : tryStructPatterns d text structPatterns with _ | p
  · rw [hs] at h
    exact tryRelPatterns_conversations d text r d' relPatterns h
  · rw [hs] at h
    cases h
    exact tryStructPatterns_conversations d text r d' structPatterns hs

/-- `_learn_flexipdf_knowledge` never touches the conversation log. -/
theorem learnFlexipdfKnowledge_conversations (d : ChatData) (text r : List Char)
    (d' : ChatData) (h : learnFlexipdfKnowledge d text = some (r, d')) :
    d'.conversations = d.conversations := by
  unfold learnFlexipdfKnowledge at h
  rcases h1 : searchSimple attAliLearn text with _ | ⟨g1, g2⟩
  · rw [h1] at h
    rcases h2 : searchSimple attTeachAli text with _ | ⟨g1, g2⟩
    · rw [h2] at h
      simp at h
    · rw [h2] at h
      simp only [Option.some.injEq, Prod.mk.injEq] at h
      rw [← h.2]
  · rw [h1] at h
    simp only [Option.some.injEq, Prod.mk.injEq] at h
    rw [← h.2]

/-- `_learn_fact_statement` never touches the conversation log. -/
theorem learnFactStatement_conversations (d : ChatData) (text r : List Char)
    (d' : ChatData) (h : learnFactStatement d text = some (r, d')) :
    d'.conversations = d.conversations := by
  unfold learnFactStatement at h
  split_ifs at h
  rcases hs : scanFact [] (text.dropWhile isSpc) with _ | ⟨g1, g2⟩
  · rw [hs] at h
    simp at h
  · rw [hs] at h
    dsimp only at h
    split_ifs at h
    simp only [Option.some.injEq, Prod.mk.injEq] at h
    rw [← h.2]

/-- C6: empty or whitespace-only input returns the prompt and leaves the
whole state (Memory Store, Conversation Log, Context Buffer) unchanged;
on every other input, every return path of `get_response` appends exactly
one exchange — the stripped input, the returned reply and the timestamp —
to both the Conversation Log and the Context Buffer. -/
theorem dispatcher_logging_frame (st : Chatbot) (now input : List Char) :
    ((strip input).isEmpty = true →
      getResponse st now input
        = (lc ("Type something for me to respond to ✍️"), st))
  ∧ ((strip input).isEmpty = false →
      (getResponse st now input).2.data.conversations
        = st.data.conversations
            ++ [⟨strip input, (getResponse st now input).1, now⟩]
      ∧ (getResponse st now input).2.context
        = ctxAppend st.ctxSize st.context
            ⟨strip input, (getResponse st now input).1, now⟩) := by
  constructor
  · intro h
    exact grEmpty st now input h
  · intro hne
    rcases h1 : learnStructuredFact st.data (strip input) with _ | ⟨r1, d1⟩
    ·
      rcases h2 : learnFlexipdfKnowledge st.data (strip input) with _ | ⟨r2, d2⟩
      ·
        rcases h3 : learnFactStatement st.data (strip input) with _ | ⟨r3, d3⟩
        ·
          rcases h4 : answerRelationshipQuery st.data (strip input) with _ | r4
          ·
            rcases h5 : answerFactQuery st.data (strip input) with _ | r5
            ·
              rcases h6 : answerPersonalQuery st.data (strip input) with _ | r6
              ·
                rcases h7 : contextualReference st (strip input) with _ | r7
                ·
                  rcases h8 : helpLoop st.data (lowerL (strip input)) helpMap with _ | r8
                  ·
                    rcases h9 : emotionReply (lowerL (strip input)) with _ | r9
                    ·
                      cases hg : greetingHit (lowerL (strip input))
                      ·
                        rcases ht : tellMeTopic (lowerL (strip input)) with _ | g
                        · rw [grFallback st now input hne h1 h2 h3 h4 h5 h6 h7 h8 h9 hg ht]
                          exact ⟨rfl, rfl⟩
                        · rcases hf : dictGet st.data.facts (lowerL (strip g)) with _ | v
                          · rcases hk : dictGet st.data.flexipdf_knowledge (lowerL (strip g)) with _ | v
                            · rw [grTellInvite st now input g hne h1 h2 h3 h4 h5 h6 h7 h8 h9 hg ht hf hk]
                              exact ⟨rfl, rfl⟩
                            · rw [grTellKnow st now input g v hne h1 h2 h3 h4 h5 h6 h7 h8 h9 hg ht hf hk]
                              exact ⟨rfl, rfl⟩
                          · rw [grTellFact st now input g v hne h1 h2 h3 h4 h5 h6 h7 h8 h9 hg ht hf]
                            exact ⟨rfl, rfl⟩
                      · rw [grGreeting st now input hne h1 h2 h3 h4 h5 h6 h7 h8 h9 hg]
                        exact ⟨rfl, rfl⟩
                    · rw [grEmotion st now input r9 hne h1 h2 h3 h4 h5 h6 h7 h8 h9]
                      exact ⟨rfl, rfl⟩
                  · rw [grHelp st now input r8 hne h1 h2 h3 h4 h5 h6 h7 h8]
                    exact ⟨rfl, rfl⟩
                · rw [grCtx st now input r7 hne h1 h2 h3 h4 h5 h6 h7]
                  exact ⟨rfl, rfl⟩
              · rw [grPersonal st now input r6 hne h1 h2 h3 h4 h5 h6]
                exact ⟨rfl, rfl⟩
            · rw [grFactQ st now input r5 hne h1 h2 h3 h4 h5]
              exact ⟨rfl, rfl⟩
          · rw [grRelQ st now input r4 hne h1 h2 h3 h4]
            exact ⟨rfl, rfl⟩
        · rw [grFactStmt st now input r3 d3 hne h1 h2 h3]
          simp only [remember]
          exact ⟨by rw [learnFactStatement_conversations st.data _ r3 d3 h3], trivial⟩
      · rw [grFlexi st now input r2 d2 hne h1 h2]
        simp only [remember]
        exact ⟨by rw [learnFlexipdfKnowledge_conversations st.data _ r2 d2 h2], trivial⟩
    · rw [grStruct st now input r1 d1 hne h1]
      simp only [remember]
      exact ⟨by rw [learnStructuredFact_conversations st.data _ r1 d1 h1], trivial⟩

/-- C6 witness: a whitespace-only input leaves a fresh instance unchanged,
and a concrete non-empty input (the greeting `hello`) appends exactly one
exchange to both the Conversation Log and the Context Buffer. -/
theorem dispatcher_logging_frame_witness :
    (strip (lc ("   "))).isEmpty = true
  ∧ getResponse (initBot (lc ("t0"))) (lc ("t1")) (lc ("   "))
      = (lc ("Type something for me to respond to ✍️"), initBot (lc ("t0")))
  ∧ (strip (lc ("hello"))).isEmpty = false
  ∧ (getResponse (initBot (lc ("t0"))) (lc ("t1")) (lc ("hello"))).2.data.conversations
      = (initBot (lc ("t0"))).data.conversations
          ++ [⟨strip (lc ("hello")),
               (getResponse (initBot (lc ("t0"))) (lc ("t1")) (lc ("hello"))).1,
               lc ("t1")⟩] :=
  ⟨rfl,
   (dispatcher_logging_frame (initBot (lc ("t0"))) (lc ("t1")) (lc ("   "))).1 rfl,
   rfl,
   ((dispatcher_logging_frame (initBot (lc ("t0"))) (lc ("t1")) (lc ("hello"))).2 rfl).1⟩

theorem takeWhile_all {p : Char → Bool} :
    ∀ l : List Char, (∀ c ∈ l, p c = true) → l.takeWhile p = l := by
  intro l
  induction l with
  | nil => intro _; rfl
  | cons a as ih =>
    intro h
    rw [List.takeWhile_cons, if_pos (h a (List.mem_cons_self _ _))]
    rw [ih (fun c hc => h c (List.mem_cons_of_mem _ hc))]

theorem dropWhile_head_false {p : Char → Bool} :
    ∀ l : List Char, (∀ c cs, l = c :: cs → p c = false) → l.dropWhile p = l := by
  intro l h
  cases l with
  | nil => rfl
  | cons a as =>
    rw [List.dropWhile_cons, if_neg (by rw [h a as rfl]; simp)]

theorem dropWhile_eq_self_of_length {p : Char → Bool} :
    ∀ l : List Char, (l.dropWhile p).length = l.length → l.dropWhile p = l := by
  intro l
  induction l with
  | nil => intro _; rfl
  | cons a as ih =>
    intro h
    by_cases hp : p a = true
    · rw [List.dropWhile_cons, if_pos hp] at h ⊢
      have hle : (as.dropWhile p).length ≤ as.length :=
        (List.dropWhile_suffix p).sublist.length_le
      simp only [List.length_cons] at h
      omega
    · rw [List.dropWhile_cons, if_neg hp]

theorem strip_parts (l : List Char) (h : strip l = l) :
    l.dropWhile isSpc = l ∧ l.reverse.dropWhile isSpc = l.reverse := by
  have h1 : (l.dropWhile isSpc).length ≤ l.length := (List.dropWhile_suffix _).sublist.length_le
  have h2 : (strip l).length ≤ (l.dropWhile isSpc).length := by
    unfold strip rstrip lstrip
    rw [List.length_reverse]
    calc ((l.dropWhile isSpc).reverse.dropWhile isSpc).length
        ≤ (l.dropWhile isSpc).reverse.length := (List.dropWhile_suffix _).sublist.length_le
      _ = (l.dropWhile isSpc).length := List.length_reverse _
  have hlen : (l.dropWhile isSpc).length = l.length := by
    rw [h] at h2
    omega
  have hls : l.dropWhile isSpc = l := dropWhile_eq_self_of_length l hlen
  refine ⟨hls, ?_⟩
  have hrs : rstrip l = l := by
    unfold strip lstrip at h
    rw [hls] at h
    exact h
  unfold rstrip at hrs
  have := congrArg List.reverse hrs
  rwa [List.reverse_reverse] at this

theorem head_not_spc (l : List Char) (hl : l.dropWhile isSpc = l) :
    ∀ c cs, l = c :: cs → isSpc c = false := by
  intro c cs he
  subst he
  by_cases hp : isSpc c = true
  · rw [List.dropWhile_cons, if_pos hp] at hl
    have hle : (cs.dropWhile isSpc).length ≤ cs.length :=
      (List.dropWhile_suffix isSpc).sublist.length_le
    have h2 := congrArg List.length hl
    simp only [List.length_cons] at h2
    omega
  · exact Bool.not_eq_true _ |>.mp hp

theorem pyTitle_ne_empty (l : List Char) (h : l ≠ []) :
    (pyTitle l).isEmpty = false := by
  cases l with
  | nil => exact absurd rfl h
  | cons c cs => rfl

theorem searchAux_of_att {α : Type} (att : Option Char → List Char → Option α)
    (prev : Option Char) (s : List Char) (r : α) (h : att prev s = some r) :
    searchAux att prev s = some r := by
  cases s with
  | nil => simpa [searchAux] using h
  | cons c cs => simp [searchAux, h]

theorem matchSpClass_space_name (c : Char) (cs : List Char)
    (hc0 : isSpc c = false)
    (hcls : ∀ x ∈ c :: cs, nameCls x = true) :
    matchSpClass nameCls (' ' :: c :: cs) = some (c :: cs) := by
  have ht : (' ' :: c :: cs).takeWhile isSpc = [' '] := by
    rw [List.takeWhile_cons, if_pos (show isSpc ' ' = true from rfl),
      List.takeWhile_cons, if_neg (by rw [hc0]; simp)]
  have hd : (' ' :: c :: cs).dropWhile isSpc = c :: cs := by
    rw [List.dropWhile_cons, if_pos (show isSpc ' ' = true from rfl),
      List.dropWhile_cons, if_neg (by rw [hc0]; simp)]
  unfold matchSpClass
  rw [ht, hd]
  dsimp only
  rw [if_pos (hcls c (List.mem_cons_self _ _))]
  rw [takeWhile_all cs (fun x hx => hcls x (List.mem_cons_of_mem _ hx))]

theorem searchPat_my_name_is (name : List Char)
    (hne : name ≠ [])
    (hcls : ∀ x ∈ name, nameCls x = true)
    (hhead : ∀ c cs, name = c :: cs → isSpc c = false) :
    searchPat (lc ("my name is")) nameCls (lc ("My name is ") ++ name)
      = some name := by
  rcases hn : name with _ | ⟨c, cs⟩
  · exact absurd hn hne
  unfold searchPat
  apply searchAux_of_att
  unfold attLC
  rw [if_pos (show bdryOk none = true from rfl)]
  rw [show litCI (lc ("my name is")) (lc ("My name is ") ++ (c :: cs))
      = some (' ' :: c :: cs) from rfl]
  exact matchSpClass_space_name c cs (hhead c cs hn) (hn ▸ hcls)

theorem nameCls_not_punct (c : Char) (h : nameCls c = true) : isPunct3 c = false := by
  rcases hb : isPunct3 c
  · rfl
  · exfalso
    simp only [isPunct3, Bool.or_eq_true, decide_eq_true_eq] at hb
    rcases hb with (h1 | h1) | h1 <;> subst h1 <;> exact absurd h (by decide)

theorem lsf_my_name_is (d : ChatData) (name : List Char)
    (hne : name ≠ [])
    (hcls : ∀ x ∈ name, nameCls x = true)
    (htrim : strip name = name) :
    learnStructuredFact d (lc ("My name is ") ++ name)
      = some (lc ("Nice to meet you, ") ++ pyTitle name
                ++ lc ("! 💫 I'll remember your name."),
              { d with user_name := some (pyTitle name) }) := by
  obtain ⟨hls, hrs⟩ := strip_parts name htrim
  have hhead := head_not_spc name hls
  have hsp := searchPat_my_name_is name hne hcls hhead
  have hval : rstripPunct (strip name) = name := by
    rw [htrim]
    unfold rstripPunct
    rw [dropWhile_head_false name.reverse ?_, List.reverse_reverse]
    intro c cs hrev
    have hc : c ∈ name := by
      rw [← List.mem_reverse, hrev]
      exact List.mem_cons_self _ _
    exact nameCls_not_punct c (hcls c hc)
  unfold learnStructuredFact
  simp only [structPatterns, tryStructPatterns, hsp]
  simp only [hval]
  simp [structConfirm, setDataKey]

theorem strip_lit_name (name : List Char) (hne : name ≠ [])
    (hrs : name.reverse.dropWhile isSpc = name.reverse) :
    strip (lc ("My name is ") ++ name) = lc ("My name is ") ++ name := by
  unfold strip lstrip rstrip
  have h1 : (lc ("My name is ") ++ name).dropWhile isSpc
      = lc ("My name is ") ++ name := by
    rw [show lc ("My name is ") ++ name = 'M' :: (lc ("y name is ") ++ name) from rfl]
    rw [List.dropWhile_cons, if_neg (by decide)]
  rw [h1, List.reverse_append]
  rcases hnr : name.reverse with _ | ⟨c, cs⟩
  · exact absurd (by simpa using congrArg List.reverse hnr) hne
  · have hc : isSpc c = false := head_not_spc name.reverse hrs c cs hnr
    rw [List.cons_append, List.dropWhile_cons, if_neg (by rw [hc]; simp),
      ← List.cons_append, ← hnr, ← List.reverse_append, List.reverse_reverse]

theorem getResponse_name_msg (t0 t1 name : List Char)
    (hne : name ≠ [])
    (hcls : ∀ x ∈ name, nameCls x = true)
    (htrim : strip name = name) :
    getResponse (initBot t0) t1 (lc ("My name is ") ++ name)
      = (nameReply name, nameState t0 t1 name) := by
  obtain ⟨hls, hrs⟩ := strip_parts name htrim
  have hstrip := strip_lit_name name hne hrs
  rw [initBot_eq]
  have hne1 : (strip (lc ("My name is ") ++ name)).isEmpty = false := by
    rw [hstrip]
    rfl
  have hlsf := lsf_my_name_is (seededBot t0).data name hne hcls htrim
  rw [grStruct (seededBot t0) t1 (lc ("My name is ") ++ name) (nameReply name)
    ({ (seededBot t0).data with user_name := some (pyTitle name) }) hne1
    (by rw [hstrip]; exact hlsf)]
  rw [hstrip]
  rfl

theorem query_whatismyname (b : Chatbot) (t u : List Char)
    (hu : b.data.user_name = some u) (hune : u.isEmpty = false)
    (hfacts : b.data.facts = [])
    (hrels : b.data.relationships = [])
    (hfpk : b.data.flexipdf_knowledge = seedDefaults) :
    (getResponse b t (lc ("What is my name?"))).1
      = lc ("Your ") ++ lc ("user name") ++ lc (" is ") ++ u ++ lc (" 🌟") := by
  have hne : (strip (lc ("What is my name?"))).isEmpty = false := rfl
  have h1 : learnStructuredFact b.data (strip (lc ("What is my name?"))) = none := rfl
  have h2 : learnFlexipdfKnowledge b.data (strip (lc ("What is my name?"))) = none := rfl
  have h3 : learnFactStatement b.data (strip (lc ("What is my name?"))) = none := rfl
  have h4 : answerRelationshipQuery b.data (strip (lc ("What is my name?"))) = none := by
    unfold answerRelationshipQuery
    rw [hrels]
    rfl
  have h5 : answerFactQuery b.data (strip (lc ("What is my name?"))) = none := by
    unfold answerFactQuery
    rw [show factQueryTerm (strip (lc ("What is my name?")))
        = some (lc ("my name?")) from rfl]
    dsimp only
    rw [show lowerL (rstripPunct (strip (lc ("my name?")))) = lc ("my name") from rfl,
      hfacts, hfpk]
    rfl
  have h6 : answerPersonalQuery b.data (strip (lc ("What is my name?")))
      = some (lc ("Your ") ++ lc ("user name") ++ lc (" is ") ++ u ++ lc (" 🌟")) := by
    unfold answerPersonalQuery
    rw [show qMap = (lc ("my name"), lc ("user_name")) :: qMap.tail from rfl]
    unfold personalLoop
    rw [if_pos (show inStr (lc ("my name"))
      (lowerL (strip (lc ("What is my name?")))) = true from rfl)]
    rw [show getDataVal b.data (lc ("user_name")) = b.data.user_name from rfl, hu]
    dsimp only
    rw [hune, if_neg Bool.false_ne_true]
    rw [show replUnd (lc ("user_name")) = lc ("user name") from rfl]
  rw [grPersonal b t (lc ("What is my name?")) _ hne h1 h2 h3 h4 h5 h6]

theorem query_whoami (b : Chatbot) (t u : List Char)
    (hu : b.data.user_name = some u) (hune : u.isEmpty = false)
    (hrels : b.data.relationships = []) :
    (getResponse b t (lc ("who am i"))).1
      = lc ("Your ") ++ lc ("user name") ++ lc (" is ") ++ u ++ lc (" 🌟") := by
  have hne : (strip (lc ("who am i"))).isEmpty = false := rfl
  have h1 : learnStructuredFact b.data (strip (lc ("who am i"))) = none := rfl
  have h2 : learnFlexipdfKnowledge b.data (strip (lc ("who am i"))) = none := rfl
  have h3 : learnFactStatement b.data (strip (lc ("who am i"))) = none := rfl
  have h4 : answerRelationshipQuery b.data (strip (lc ("who am i"))) = none := by
    unfold answerRelationshipQuery
    rw [hrels]
    rfl
  have h5 : answerFactQuery b.data (strip (lc ("who am i"))) = none := rfl
  have h6 : answerPersonalQuery b.data (strip (lc ("who am i")))
      = some (lc ("Your ") ++ lc ("user name") ++ lc (" is ") ++ u ++ lc (" 🌟")) := by
    unfold answerPersonalQuery
    rw [show qMap = (lc ("my name"), lc ("user_name"))
        :: (lc ("who am i"), lc ("user_name")) :: (qMap.tail).tail from rfl]
    unfold personalLoop
    rw [if_neg (by rw [show inStr (lc ("my name"))
      (lowerL (strip (lc ("who am i")))) = false from rfl]; simp)]
    unfold personalLoop
    rw [if_pos (show inStr (lc ("who am i"))
      (lowerL (strip (lc ("who am i")))) = true from rfl)]
    rw [show getDataVal b.data (lc ("user_name")) = b.data.user_name from rfl, hu]
    dsimp only
    rw [hune, if_neg Bool.false_ne_true]
    rw [show replUnd (lc ("user_name")) = lc ("user name") from rfl]
  rw [grPersonal b t (lc ("who am i")) _ hne h1 h2 h3 h4 h5 h6]

/-- C3: for every name made of letters, spaces, apostrophes and hyphens
(a trimmed, non-empty name), saying `My name is <Name>` to a fresh
instance and then asking `What is my name?` (or `who am i`) yields a
second reply containing the title-cased name.  Starting from a fresh
instance encodes the claim's proviso that no conflicting fact or
relationship entry intercepts the query: the Fact Table and Relationship
Map are empty throughout the two exchanges. -/
theorem name_roundtrip_titlecased (name t0 t1 t2 t3 : List Char)
    (hne : name ≠ [])
    (hcls : ∀ c ∈ name, nameCls c = true)
    (htrim : strip name = name) :
    List.IsInfix (pyTitle name)
      ((getResponse ((getResponse (initBot t0) t1 (lc ("My name is ") ++ name)).2)
        t2 (lc ("What is my name?"))).1)
  ∧ List.IsInfix (pyTitle name)
      ((getResponse ((getResponse (initBot t0) t1 (lc ("My name is ") ++ name)).2)
        t3 (lc ("who am i"))).1) := by
  rw [getResponse_name_msg t0 t1 name hne hcls htrim]
  have hune : (pyTitle name).isEmpty = false := pyTitle_ne_empty name hne
  constructor
  · rw [query_whatismyname (nameState t0 t1 name) t2 (pyTitle name) rfl hune rfl rfl rfl]
    exact ⟨lc ("Your ") ++ (lc ("user name") ++ lc (" is ")), lc (" 🌟"),
      by simp [List.append_assoc]⟩
  · rw [query_whoami (nameState t0 t1 name) t3 (pyTitle name) rfl hune rfl]
    exact ⟨lc ("Your ") ++ (lc ("user name") ++ lc (" is ")), lc (" 🌟"),
      by simp [List.append_assoc]⟩

/-- C3 witness: the round trip at the concrete name `ali khan`. -/
theorem name_roundtrip_titlecased_witness :
    (lc ("ali khan") ≠ []
      ∧ (∀ c ∈ lc ("ali khan"), nameCls c = true)
      ∧ strip (lc ("ali khan")) = lc ("ali khan"))
  ∧ List.IsInfix (pyTitle (lc ("ali khan")))
      ((getResponse ((getResponse (initBot (lc ("t0"))) (lc ("t1"))
          (lc ("My name is ") ++ lc ("ali khan"))).2) (lc ("t2"))
        (lc ("What is my name?"))).1)
  ∧ List.IsInfix (pyTitle (lc ("ali khan")))
      ((getResponse ((getResponse (initBot (lc ("t0"))) (lc ("t1"))
          (lc ("My name is ") ++ lc ("ali khan"))).2) (lc ("t3"))
        (lc ("who am i"))).1) :=
  ⟨⟨by decide, by decide, by decide⟩,
   (name_roundtrip_titlecased (lc ("ali khan")) (lc ("t0")) (lc ("t1")) (lc ("t2"))
     (lc ("t3")) (by decide) (by decide) (by decide)).1,
   (name_roundtrip_titlecased (lc ("ali khan")) (lc ("t0")) (lc ("t1")) (lc ("t2"))
     (lc ("t3")) (by decide) (by decide) (by decide)).2⟩
